import Mathlib

/-!
# Verification of the temporal-aggregation and unique-project-counting engine
of the `gerador_dashboard.py` real-estate dashboard generator.

The definitions below are a shallow embedding of the aggregation core:

* the embedded JavaScript aggregation functions (`calculateIndicator`,
  `calculatePeriodAggregations`, `calculateIVV`,
  `calculateIVVPeriodAggregations`,
  `calculateValorPonderadoPeriodAggregations`, the `gastos_pos_entrega`
  part of `generateCrossData` and the Table-8 category redistribution);
* the Python helpers `categorize_value`, `categorize_area`,
  `extract_empreendimento_name`, `DashboardGenerator.get_projects_details`
  and `LaunchDataManager.get_public_launch_counts`.

Modelling conventions:

* Machine numbers (pandas floats / JS numbers) are modelled as `ℚ`.
  The claims under scrutiny are about exact arithmetic identities of the
  code, and the code never relies on float rounding; division is total on
  `ℚ` with `x / 0 = 0`, and every divisor is guarded in the embedded code
  exactly where the source guards it.
* Possibly-missing values (NaN / null / undefined) are `Option ℚ`
  (respectively `Option String`, `Option Int`).  The JS idiom
  `row.F || 0` and the pandas idiom `fillna(0)` / skip-NaN summation are
  both `Option.getD · 0`.
* JS objects keyed by periods are association lists built in insertion
  order.  JS iterates integer-like keys in ascending numeric order rather
  than insertion order; every aggregate computed from an iteration
  (sums, means) is order-insensitive over `ℚ`, so the association-list
  order never affects a stated value.
* Periods (`ANO_MES`) are natural numbers.  The ingested data always
  carries a 6-digit `YYYYMM` integer (a documented invariant of the data
  model), so the month extraction `String(p).substring(4,6)` is `p % 100`;
  the year extraction `int(str(p)[:4])` / `parseInt(String(p).substring(0,4))`
  is modelled faithfully for all naturals via decimal digits.
-/

namespace Dashboard

/-! ## Association-list infrastructure

JS objects `{key: value}` built by `obj[k] = (obj[k] || 0) + v` style
updates, modelled as lists of key/value pairs in insertion order. -/
variable {κ : Type} [DecidableEq κ]

/-! ### Definitions -/

/-- Lookup in an association list (first match). -/
def alookup (m : List (κ × α)) (k : κ) : Option α :=
  match m with
  | [] => none
  | (k', v) :: rest => if k = k' then some v else alookup rest k

/-- Source `obj[k] = (obj[k] || 0) + v`: add `v` to the entry at `k`, creating the
entry (at the end, i.e. insertion order) when absent. -/
def bump (m : List (κ × ℚ)) (k : κ) (v : ℚ) : List (κ × ℚ) :=
  match m with
  | [] => [(k, v)]
  | (k', v') :: rest => if k = k' then (k', v' + v) :: rest else (k', v') :: bump rest k v

/-- Two-component variant (used for `{vendas, ofertas}` and
`{totalValor, totalArea}` accumulators). -/
def bump2 (m : List (κ × (ℚ × ℚ))) (k : κ) (v w : ℚ) : List (κ × (ℚ × ℚ)) :=
  match m with
  | [] => [(k, (v, w))]
  | (k', p) :: rest =>
      if k = k' then (k', (p.1 + v, p.2 + w)) :: rest else (k', p) :: bump2 rest k v w

/-- Source `groups[k].push(v)` creating `groups[k] = []` when absent. -/
def pushGroup (m : List (κ × List ℚ)) (k : κ) (v : ℚ) : List (κ × List ℚ) :=
  match m with
  | [] => [(k, [v])]
  | (k', vs) :: rest =>
      if k = k' then (k', vs ++ [v]) :: rest else (k', vs) :: pushGroup rest k v

/-! ## Data model: one raw spreadsheet row (`MarketRecord`) -/
/-- One raw input row, with the columns the aggregation core reads. -/
structure Row where
  anoMes : Nat
  ofertaVenda : String
  bairro : Option String
  quantidade : Option ℚ
  areaQuantidade : Option ℚ
  areaQuantidadeValor : Option ℚ
  qtdQuartos : Option Int
  empreendimento : Option String
  empresa : Option String
deriving DecidableEq

/-- Source `VENDIDOS = ['VENDIDOS', 'VENDIDOS - LANCADOS E VENDIDOS']`. -/
def vendidosTypes : List String := ["VENDIDOS", "VENDIDOS - LANCADOS E VENDIDOS"]

/-- Source `OFERTA_DISPONIVEIS = ['OFERTADOS DISPONIVEIS', 'OFERTADOS LANCAMENTOS']`. -/
def ofertadosTypes : List String := ["OFERTADOS DISPONIVEIS", "OFERTADOS LANCAMENTOS"]

/-- Status tag of launch rows (`OFERTA_LANCAMENTOS`). -/
def launchStatus : String := "OFERTADOS LANCAMENTOS"

/-- Number of decimal digits of `p` (length of `str(p)`), with the
input as recursion fuel. -/
def digitCountAux : Nat → Nat → Nat
  | 0, _ => 0
  | fuel + 1, p => if p < 10 then 1 else 1 + digitCountAux fuel (p / 10)

/-- Number of decimal digits of `p`. -/
def digitCount (p : Nat) : Nat := digitCountAux (p + 1) p

/-- Source `parseInt(String(period).substring(0, 4))` / `int(str(period)[:4])`:
the number formed by the first four decimal digits of the period (the
whole number when it has at most four digits). -/
def yearOfPeriod (p : Nat) : Nat :=
  if digitCount p ≤ 4 then p else p / 10 ^ (digitCount p - 4)

/-- Source `parseInt(String(period).substring(4, 6))`: the number formed by the
fifth and sixth decimal digits.  For a period of at most four digits the
substring is empty and `parseInt` yields `NaN`, which every consumer
passes to `getQuarter` where it selects the same default bucket 4 as the
value 0 used here; for the documented 6-digit `YYYYMM` periods this is
`p % 100`. -/
def monthOfPeriod (p : Nat) : Nat :=
  if digitCount p ≤ 4 then 0
  else if digitCount p = 5 then p % 10
  else (p / 10 ^ (digitCount p - 6)) % 100

/-- A period respecting the documented `YYYYMM` invariant. -/
def sixDigit (p : Nat) : Prop := 100000 ≤ p ∧ p ≤ 999999

/-- JS `getQuarter` helper (identical in all aggregation functions):
months 1–3 ↦ 1, 4–6 ↦ 2, 7–9 ↦ 3, anything else ↦ 4. -/
def getQuarter (m : Nat) : Nat :=
  if 1 ≤ m ∧ m ≤ 3 then 1
  else if 4 ≤ m ∧ m ≤ 6 then 2
  else if 7 ≤ m ∧ m ≤ 9 then 3
  else 4

/-- The quarterly bucket key `"{year}_{quarter}T"`, as the (injective)
pair (year, quarter). -/
def quarterKey (p : Nat) : Nat × Nat := (yearOfPeriod p, getQuarter (monthOfPeriod p))

/-- Source `Math.round`: round half toward positive infinity. -/
def jsRound (q : ℚ) : Int := ⌊q + 1 / 2⌋

/-- Python `int(...)` applied to a float: truncation toward zero. -/
def intTrunc (q : ℚ) : Int := if 0 ≤ q then ⌊q⌋ else ⌈q⌉

/-! ## `calculateIndicator` and `calculatePeriodAggregations` -/
/-- Source `calculateIndicator(data, ofertaTypes)`: per-month sums of
`QUANTIDADE` over the rows whose status is in `ofertaTypes`. -/
def calculateIndicator (rows : List Row) (ofertaTypes : List String) : List (Nat × ℚ) :=
  rows.foldl
    (fun m r => if r.ofertaVenda ∈ ofertaTypes then bump m r.anoMes (r.quantidade.getD 0) else m)
    []

/-- The result record `{monthly, quarterly, yearly}` of the JS aggregation
functions: monthly keyed by period, quarterly by (year, quarter), yearly
by year. -/
structure Aggregations where
  monthly : List (Nat × ℚ)
  quarterly : List ((Nat × Nat) × ℚ)
  yearly : List (Nat × ℚ)

/-- Quarterly value formation in `calculatePeriodAggregations`:
sum for the plain metrics, `Math.round` of the arithmetic mean for the
offer-style metrics (`isOferta`). -/
def aggValue (isOferta : Bool) (vs : List ℚ) : ℚ :=
  if isOferta then (jsRound (vs.sum / vs.length) : ℚ) else vs.sum

/-- Source `calculatePeriodAggregations(data, ofertaTypes, isOferta)`. -/
def calculatePeriodAggregations (rows : List Row) (ofertaTypes : List String)
    (isOferta : Bool) : Aggregations :=
  let monthly := calculateIndicator rows ofertaTypes
  if monthly = [] then ⟨[], [], []⟩ else
  let quarterlyGroups :=
    monthly.foldl (fun gs e => pushGroup gs (quarterKey e.1) e.2) []
  let quarterly := quarterlyGroups.map (fun g => (g.1, aggValue isOferta g.2))
  let yearlyGroups :=
    monthly.foldl (fun gs e => pushGroup gs (yearOfPeriod e.1) e.2) []
  let yearly := yearlyGroups.map (fun g => (g.1, aggValue isOferta g.2))
  ⟨monthly, quarterly, yearly⟩

/-- The rows of `rows` that `calculateIndicator` accumulates into
period `p`. -/
def matchingRows (rows : List Row) (ofertaTypes : List String) (p : Nat) : List Row :=
  rows.filter (fun r => r.ofertaVenda ∈ ofertaTypes ∧ r.anoMes = p)

/-- Sum of (`|| 0`-coerced) `QUANTIDADE` over the matching rows. -/
def qtySum (rows : List Row) (ofertaTypes : List String) (p : Nat) : ℚ :=
  ((matchingRows rows ofertaTypes p).map (fun r => r.quantidade.getD 0)).sum

/-- The list of monthly values of `entries` falling into the bucket `k`
under the key function `f` (quarter or year of the month key). -/
def bucketOf {κ : Type} [DecidableEq κ] (f : Nat → κ) (entries : List (Nat × ℚ)) (k : κ) :
    List ℚ :=
  (entries.filter (fun e => f e.1 = k)).map (fun e => e.2)

/-! ## `calculateIVV` and `calculateIVVPeriodAggregations` -/
/-- The `{vendas, ofertas}` accumulator of `calculateIVV`: every row
creates its period key (whatever its status); sold statuses add their
quantity to `vendas`, offered statuses to `ofertas`. -/
def ivvPeriods (rows : List Row) : List (Nat × (ℚ × ℚ)) :=
  rows.foldl
    (fun m r =>
      if r.ofertaVenda ∈ vendidosTypes then bump2 m r.anoMes (r.quantidade.getD 0) 0
      else if r.ofertaVenda ∈ ofertadosTypes then bump2 m r.anoMes 0 (r.quantidade.getD 0)
      else bump2 m r.anoMes 0 0)
    []

/-- Source `calculateIVV(data)`: per month,
`ofertas > 0 ? (vendas / ofertas) * 100 : 0`. -/
def calculateIVV (rows : List Row) : List (Nat × ℚ) :=
  (ivvPeriods rows).map (fun e => (e.1, if 0 < e.2.2 then e.2.1 / e.2.2 * 100 else 0))

/-- Quarterly/yearly IVV value: plain arithmetic mean of the monthly IVV
values of the bucket (no rounding, no recomputation from summed rows). -/
def ivvMean (vs : List ℚ) : ℚ := vs.sum / vs.length

/-- Source `calculateIVVPeriodAggregations(data)`. -/
def calculateIVVPeriodAggregations (rows : List Row) : Aggregations :=
  let monthlyIVV := calculateIVV rows
  if monthlyIVV = [] then ⟨[], [], []⟩ else
  let quarterlyGroups :=
    monthlyIVV.foldl (fun gs e => pushGroup gs (quarterKey e.1) e.2) []
  let quarterly := quarterlyGroups.map (fun g => (g.1, ivvMean g.2))
  let yearlyGroups :=
    monthlyIVV.foldl (fun gs e => pushGroup gs (yearOfPeriod e.1) e.2) []
  let yearly := yearlyGroups.map (fun g => (g.1, ivvMean g.2))
  ⟨monthlyIVV, quarterly, yearly⟩

/-- Sum of sold quantities of period `p` (statuses `VENDIDOS`,
`VENDIDOS - LANCADOS E VENDIDOS`). -/
def vendasSum (rows : List Row) (p : Nat) : ℚ := qtySum rows vendidosTypes p

/-- Sum of offered quantities of period `p` (statuses
`OFERTADOS DISPONIVEIS`, `OFERTADOS LANCAMENTOS`). -/
def ofertasSum (rows : List Row) (p : Nat) : ℚ := qtySum rows ofertadosTypes p

/-- Rows of period `p` (any status): these are the rows that create the
period key in `calculateIVV`. -/
def periodRows (rows : List Row) (p : Nat) : List Row :=
  rows.filter (fun r => r.anoMes = p)

/-! ## `calculateValorPonderadoPeriodAggregations` -/
/-- The row filter of the weighted-price aggregation: status selected and
both `AREA_QUANTIDADE_VALOR` and `AREA_QUANTIDADE` strictly positive. -/
def valorRowOk (ofertaTypes : List String) (r : Row) : Prop :=
  r.ofertaVenda ∈ ofertaTypes ∧ 0 < r.areaQuantidadeValor.getD 0 ∧ 0 < r.areaQuantidade.getD 0

instance (ofertaTypes : List String) (r : Row) : Decidable (valorRowOk ofertaTypes r) := by
  unfold valorRowOk; infer_instance

/-- The `monthlyData` accumulator `{totalValor, totalArea}` of
`calculateValorPonderadoPeriodAggregations`. -/
def valorMonthlyData (rows : List Row) (ofertaTypes : List String) : List (Nat × (ℚ × ℚ)) :=
  rows.foldl
    (fun m r =>
      if valorRowOk ofertaTypes r then
        bump2 m r.anoMes (r.areaQuantidadeValor.getD 0) (r.areaQuantidade.getD 0)
      else m)
    []

/-- Contributing rows of period `p`. -/
def valorRows (rows : List Row) (ofertaTypes : List String) (p : Nat) : List Row :=
  rows.filter (fun r => valorRowOk ofertaTypes r ∧ r.anoMes = p)

/-- Source `Σ(value × qty)` of the contributing rows of period `p`. -/
def valorSum (rows : List Row) (ofertaTypes : List String) (p : Nat) : ℚ :=
  ((valorRows rows ofertaTypes p).map (fun r => r.areaQuantidadeValor.getD 0)).sum

/-- Source `Σ(qty in m²)` of the contributing rows of period `p`. -/
def areaSum (rows : List Row) (ofertaTypes : List String) (p : Nat) : ℚ :=
  ((valorRows rows ofertaTypes p).map (fun r => r.areaQuantidade.getD 0)).sum

/-- Source `calculateValorPonderadoPeriodAggregations(data, ofertaTypes)`:
monthly `totalValor / totalArea`; quarterly/yearly re-weighted from the
raw sums of the contained months, not averaged over the monthly ratios. -/
def calculateValorPonderadoPeriodAggregations (rows : List Row)
    (ofertaTypes : List String) : Aggregations :=
  let monthlyData := valorMonthlyData rows ofertaTypes
  let monthly := monthlyData.filterMap
    (fun e => if 0 < e.2.2 then some (e.1, e.2.1 / e.2.2) else none)
  if monthly = [] then ⟨[], [], []⟩ else
  let quarterlyGroups :=
    monthlyData.foldl (fun gs e => bump2 gs (quarterKey e.1) e.2.1 e.2.2) []
  let quarterly := quarterlyGroups.map
    (fun g => (g.1, if 0 < g.2.2 then g.2.1 / g.2.2 else 0))
  let yearlyGroups :=
    monthlyData.foldl (fun gs e => bump2 gs (yearOfPeriod e.1) e.2.1 e.2.2) []
  let yearly := yearlyGroups.map
    (fun g => (g.1, if 0 < g.2.2 then g.2.1 / g.2.2 else 0))
  ⟨monthly, quarterly, yearly⟩

/-- The entries of `monthlyData` falling into bucket `k` under the key
function `f`. -/
def bucket2 {κ : Type} [DecidableEq κ] (f : Nat → κ) (entries : List (Nat × (ℚ × ℚ)))
    (k : κ) : List (Nat × (ℚ × ℚ)) :=
  entries.filter (fun e => f e.1 = k)

/-! ## `categorize_value` / `categorize_area` (`FAIXAS_VALOR`, `FAIXAS_AREA`) -/
/-- One categorisation bracket `(min, max, label)`; `hi = none` models the
`float('inf')` upper bound. -/
structure Faixa where
  lo : ℚ
  hi : Option ℚ
  label : String
deriving DecidableEq

/-- Source `FAIXAS_VALOR`. -/
def faixasValor : List Faixa :=
  [⟨0, some 350000, "< 350.000"⟩,
   ⟨350000, some 500000, "350.000 – 499.999"⟩,
   ⟨500000, some 700000, "500.000 – 699.999"⟩,
   ⟨700000, some 1000000, "700.000 – 999.999"⟩,
   ⟨1000000, some 2000000, "1.000.000 – 1.999.999"⟩,
   ⟨2000000, none, "≥ 2.000.000"⟩]

/-- Source `FAIXAS_AREA`. -/
def faixasArea : List Faixa :=
  [⟨0, some 40, "Até 40m²"⟩,
   ⟨41, some 60, "41 a 60m²"⟩,
   ⟨61, some 80, "61 a 80m²"⟩,
   ⟨81, some 100, "81 a 100m²"⟩,
   ⟨101, some 120, "101 a 120m²"⟩,
   ⟨121, some 150, "121 a 150m²"⟩,
   ⟨151, some 175, "151 a 175m²"⟩,
   ⟨176, some 200, "176 a 200m²"⟩,
   ⟨201, none, "Mais de 200m²"⟩]

/-- Source `value < max_val` against an optionally-infinite upper bound. -/
def ltHi (v : ℚ) : Option ℚ → Prop
  | none => True
  | some hi => v < hi

/-- Source `area <= max_area` against an optionally-infinite upper bound. -/
def leHi (v : ℚ) : Option ℚ → Prop
  | none => True
  | some hi => v ≤ hi

instance (v : ℚ) (o : Option ℚ) : Decidable (ltHi v o) := by
  unfold ltHi; cases o <;> infer_instance

instance (v : ℚ) (o : Option ℚ) : Decidable (leHi v o) := by
  unfold leHi; cases o <;> infer_instance

/-- Source `min_val <= value < max_val` (the `categorize_value` bracket test). -/
def inValue (v : ℚ) (f : Faixa) : Prop := f.lo ≤ v ∧ ltHi v f.hi

/-- Source `min_area <= area <= max_area` (the `categorize_area` bracket test,
upper bound inclusive). -/
def inArea (a : ℚ) (f : Faixa) : Prop := f.lo ≤ a ∧ leHi a f.hi

instance (v : ℚ) (f : Faixa) : Decidable (inValue v f) := by
  unfold inValue; infer_instance

instance (a : ℚ) (f : Faixa) : Decidable (inArea a f) := by
  unfold inArea; infer_instance

/-- The `for`-loop of `categorize_value`: label of the first bracket whose
test holds, `'N/A'` when none does. -/
def findValueLabel (v : ℚ) : List Faixa → String
  | [] => "N/A"
  | f :: rest => if inValue v f then f.label else findValueLabel v rest

/-- The `for`-loop of `categorize_area`. -/
def findAreaLabel (a : ℚ) : List Faixa → String
  | [] => "N/A"
  | f :: rest => if inArea a f then f.label else findAreaLabel a rest

/-- Source `categorize_value`: `N/A` on NaN, else the label of the first bracket
containing the value, else `N/A`. -/
def categorize_value (v : Option ℚ) : String :=
  match v with
  | none => "N/A"
  | some v => findValueLabel v faixasValor

/-- Source `categorize_area`. -/
def categorize_area (a : Option ℚ) : String :=
  match a with
  | none => "N/A"
  | some a => findAreaLabel a faixasArea

/-! ## Post-delivery spend (`gastos_pos_entrega` in `generateCrossData`)
and the Table-8 category redistribution -/
/-- Source `c = d` on characters after uppercasing; `strUpper` models
`str.upper()` / `.toUpperCase()` for ASCII letters and for the accented
letters occurring in the fixed neighbourhood lists. -/
def charUpper (c : Char) : Char :=
  if c = 'á' then 'Á' else if c = 'à' then 'À' else if c = 'â' then 'Â'
  else if c = 'ã' then 'Ã' else if c = 'ç' then 'Ç' else if c = 'é' then 'É'
  else if c = 'ê' then 'Ê' else if c = 'í' then 'Í' else if c = 'ó' then 'Ó'
  else if c = 'ô' then 'Ô' else if c = 'õ' then 'Õ' else if c = 'ú' then 'Ú'
  else if c = 'ü' then 'Ü' else c.toUpper

/-- Uppercase a character list. -/
def upperL (l : List Char) : List Char := l.map charUpper

/-- Uppercase a string. -/
def strUpper (s : String) : String := ⟨upperL s.data⟩

/-- Source `sub` is a leading segment of `s`. -/
def leadSeg : List Char → List Char → Bool
  | [], _ => true
  | _ :: _, [] => false
  | c :: cs, d :: ds => c = d && leadSeg cs ds

/-- JS `String.prototype.includes`: `sub` occurs contiguously in `s`. -/
def containsSub (s sub : List Char) : Bool :=
  leadSeg sub s ||
    (match s with
     | [] => false
     | _ :: t => containsSub t sub)

/-- The `padraoRegioes` lookup table, `Alto` tier. -/
def regioesAlto : List String :=
  ["NOROESTE", "SUDOESTE", "JARDIM BOTÂNICO", "ASA SUL", "ASA NORTE", "LAGO NORTE"]

/-- The `padraoRegioes` lookup table, `Médio` tier. -/
def regioesMedio : List String :=
  ["ÁGUAS CLARAS", "GUARÁ", "SOBRADINHO", "SOBRADINHO II", "PARK SUL", "TAGUATINGA"]

/-- The `padraoRegioes` lookup table, `Popular` tier. -/
def regioesPopular : List String :=
  ["CEILÂNDIA", "PLANALTINA", "SANTA MARIA", "GAMA", "RECANTO DAS EMAS", "SAMAMBAIA"]

/-- Source `regioes.some(r => regiaoUpper.includes(r) || r.includes(regiaoUpper))`. -/
def matchesTier (b : String) (regioes : List String) : Bool :=
  regioes.any (fun r =>
    containsSub (strUpper b).data r.data || containsSub r.data (strUpper b).data)

/-- Source `getPadraoRegiao`: first tier (in object-key order Alto, Médio,
Popular) whose list matches, default `Médio`. -/
def getPadraoRegiao (b : String) : String :=
  if matchesTier b regioesAlto then "Alto"
  else if matchesTier b regioesMedio then "Médio"
  else if matchesTier b regioesPopular then "Popular"
  else "Médio"

/-- The CBIC percentage of a construction-standard tier:
`Alto` 25 %, `Popular` 10 %, anything else (`Médio` and the default) 15 %. -/
def cbicPct (padrao : String) : ℚ :=
  if padrao = "Popular" then 1 / 10 else if padrao = "Alto" then 1 / 4 else 3 / 20

/-- The room bucket `qVal`: `''` when missing, `'4+'` for ≥ 4, else the
decimal room count. -/
def qVal (r : Row) : String :=
  match r.qtdQuartos with
  | none => ""
  | some n => if 4 ≤ n then "4+" else toString n

/-- The post-delivery spend contribution of one sold row:
`VGV × percentualCBIC` of its neighbourhood's tier. -/
def rowSpend (r : Row) : ℚ :=
  (r.areaQuantidadeValor.getD 0) * cbicPct (getPadraoRegiao (r.bairro.getD ""))

/-- The `gastos_pos_entrega` accumulator of `generateCrossData`, with the
neighbourhood → room-bucket nesting flattened into pair keys.  Rows with
empty neighbourhood are skipped (`if (!bairro) return`); sold-status rows
add `vgv * percentualCBIC`. -/
def gastosPosEntrega (rows : List Row) : List ((String × String) × ℚ) :=
  rows.foldl
    (fun m r =>
      if r.bairro.getD "" = "" then m
      else if r.ofertaVenda ∈ vendidosTypes then bump m (r.bairro.getD "", qVal r) (rowSpend r)
      else m)
    []

/-- The sold rows accumulated into the cell `(b, q)`. -/
def soldCellRows (rows : List Row) (b q : String) : List Row :=
  rows.filter (fun r =>
    r.ofertaVenda ∈ vendidosTypes ∧ r.bairro.getD "" = b ∧ qVal r = q)

/-- Total `gastos_pos_entrega` of a neighbourhood (Table-8 `gastosRegiao`:
sum over the room buckets of the region). -/
def regiaoGastosTotal (rows : List Row) (b : String) : ℚ :=
  (((gastosPosEntrega rows).filter (fun e => e.1.1 = b)).map (fun e => e.2)).sum

/-- Table-8: `VGV = gastos / percentual` reconstructed per region. -/
def vgvReconstruido (rows : List Row) (b : String) : ℚ :=
  regiaoGastosTotal rows b / cbicPct (getPadraoRegiao b)

/-- The 8 fixed expense categories with their per-tier decimal weights
(`alto`, `medio`, `popular`), as hard-coded for Table 8. -/
def categorias : List (String × ℚ × ℚ × ℚ) :=
  [("Obras Habitações", 43/1000, 30/1000, 35/1000),
   ("Cama Mesa Banho", 13/1000, 6/1000, 3/1000),
   ("Artigos Decoração", 30/1000, 23/1000, 8/1000),
   ("Móveis Planejados", 30/1000, 15/1000, 7/1000),
   ("Eletroeletrônicos", 18/1000, 15/1000, 4/1000),
   ("Instalações Elétricas", 19/1000, 11/1000, 16/1000),
   ("Mobiliário", 63/1000, 30/1000, 22/1000),
   ("Outros Serviços", 34/1000, 20/1000, 5/1000)]

/-- Category weight selection: default `medio`, `alto` for tier `Alto`,
`popular` for tier `Popular`. -/
def catWeight (padrao : String) (c : String × ℚ × ℚ × ℚ) : ℚ :=
  if padrao = "Alto" then c.2.1 else if padrao = "Popular" then c.2.2.2 else c.2.2.1

/-- Table-8 cell: `valorCategoria = vgvRegiao * percentualCategoria`. -/
def spendByCategory (rows : List Row) (b : String) : List ℚ :=
  categorias.map (fun c => vgvReconstruido rows b * catWeight (getPadraoRegiao b) c)

/-- Spend accumulated into one cell. -/
def cellSpendSum (rows : List Row) (b q : String) : ℚ :=
  ((soldCellRows rows b q).map rowSpend).sum

/-! ## `extract_empreendimento_name`: canonical project-name normalisation

The pandas implementation is a chain of `str.replace` calls (literal
case-insensitive replacements and regex substitutions) followed by
uppercasing and the removal of 19 suffix/qualifier regex patterns.  The
patterns use only the constructs `\s+`, literal words, `[A-Z0-9]+`
(under `IGNORECASE`), `[0-9]+`, an optional final letter (`S?`) and `\b`;
for these the leftmost match is found by a deterministic greedy scan:

* `\s+` / `[A-Z0-9]+` / `[0-9]+` before a literal are maximal runs (the
  following literal starts with a character outside the class, so greedy
  matching never needs to backtrack);
* `S?` is taken greedily; in `QUARTOS?` nothing follows, and in
  `SUÍTES?\b` the boundary fails after `E` exactly when it fails after a
  taken `S` followed by a word character, so the greedy choice agrees
  with backtracking;
* `\b` always follows a word character in these patterns, so it holds iff
  the next character is absent or not a word character.

`re.sub` removes every non-overlapping leftmost match, resuming the scan
at the end of each match; `scanRemove` below does exactly that, with the
input length as fuel (every pattern starts with `\s+`, so a match always
consumes at least one character). -/
/-- The characters of the regex class `\s` (also used by `str.strip`). -/
def isWS (c : Char) : Bool :=
  c = ' ' || c = '\t' || c = '\n' || c = '\r' || c = '\x0b' || c = '\x0c'

/-- Source `[A-Z0-9]` under `IGNORECASE`. -/
def isPatAlnum (c : Char) : Bool :=
  ('A' ≤ c && c ≤ 'Z') || ('a' ≤ c && c ≤ 'z') || c.isDigit

/-- The accented letters that occur in the source's patterns and data. -/
def accented : List Char :=
  ['Á', 'À', 'Â', 'Ã', 'Ç', 'É', 'Ê', 'Í', 'Ó', 'Ô', 'Õ', 'Ú', 'Ü',
   'á', 'à', 'â', 'ã', 'ç', 'é', 'ê', 'í', 'ó', 'ô', 'õ', 'ú', 'ü']

/-- Word characters for `\b` (ASCII letters, digits, underscore and the
accented letters above). -/
def isWordChar (c : Char) : Bool := isPatAlnum c || c = '_' || accented.contains c

/-- Tokens of the suffix-removal patterns. -/
inductive Tok where
  | ws
  | lit (cs : List Char)
  | alnum
  | digits
  | opt (c : Char)
  | bdry
deriving DecidableEq

/-- Case-insensitive comparison of a pattern literal with the head of the
input. -/
def leadSegCI : List Char → List Char → Bool
  | [], _ => true
  | _ :: _, [] => false
  | c :: cs, d :: ds => charUpper c = charUpper d && leadSegCI cs ds

/-- Match a token sequence at the head of the input, returning the
remaining input on success (deterministic greedy semantics, see above). -/
def matchToks : List Tok → List Char → Option (List Char)
  | [], l => some l
  | Tok.ws :: ts, l =>
      if l.takeWhile isWS = [] then none else matchToks ts (l.dropWhile isWS)
  | Tok.lit cs :: ts, l =>
      if leadSegCI cs l then matchToks ts (l.drop cs.length) else none
  | Tok.alnum :: ts, l =>
      if l.takeWhile isPatAlnum = [] then none else matchToks ts (l.dropWhile isPatAlnum)
  | Tok.digits :: ts, l =>
      if l.takeWhile Char.isDigit = [] then none else matchToks ts (l.dropWhile Char.isDigit)
  | Tok.opt c :: ts, l =>
      match l with
      | [] => matchToks ts []
      | d :: rest => if charUpper d = charUpper c then matchToks ts rest else matchToks ts (d :: rest)
  | Tok.bdry :: ts, l =>
      match l with
      | [] => matchToks ts []
      | d :: _ => if isWordChar d then none else matchToks ts l

/-- Source `re.sub(pat, '', s)`: remove every leftmost non-overlapping match,
resuming after each match; fuelled by the input length. -/
def scanRemove (pat : List Tok) : Nat → List Char → List Char
  | _, [] => []
  | 0, l => l
  | Nat.succ n, c :: cs =>
      match matchToks pat (c :: cs) with
      | some rest => scanRemove pat n rest
      | none => c :: scanRemove pat n cs

/-- Remove all matches of `pat` from `l`. -/
def removeAll (pat : List Tok) (l : List Char) : List Char := scanRemove pat l.length l

/-- Case-insensitive literal replace-all (`str.replace(..., case=False,
regex=False)`), fuelled by the input length; the replacement is emitted
to the output and never rescanned, as in `re.sub`. -/
def scanReplaceCI (pat repl : List Char) : Nat → List Char → List Char
  | _, [] => []
  | 0, l => l
  | Nat.succ n, c :: cs =>
      if leadSegCI pat (c :: cs) then repl ++ scanReplaceCI pat repl n ((c :: cs).drop pat.length)
      else c :: scanReplaceCI pat repl n cs

/-- Replace all case-insensitive occurrences of `pat` by `repl`. -/
def replaceCI (pat repl l : List Char) : List Char := scanReplaceCI pat repl l.length l

/-- Source `str.strip()`: drop leading and trailing whitespace. -/
def stripWS (l : List Char) : List Char :=
  ((l.dropWhile isWS).reverse.dropWhile isWS).reverse

/-- Source `str.replace(r'^WORD\s+', '', regex=True, case=False)`: anchored, so a
single leading occurrence of the word plus following whitespace is
removed. -/
def stripPre (tok : List Char) (l : List Char) : List Char :=
  if leadSegCI tok l then
    if (l.drop tok.length).takeWhile isWS = [] then l
    else (l.drop tok.length).dropWhile isWS
  else l

/-- Source `\s+WORD\s+[A-Z0-9]+`. -/
def patWord (w : String) : List Tok := [Tok.ws, Tok.lit w.data, Tok.ws, Tok.alnum]

/-- Source `\s+WORD\b`. -/
def patBdry (w : String) : List Tok := [Tok.ws, Tok.lit w.data, Tok.bdry]

/-- The `patterns_to_remove` list of `extract_empreendimento_name`,
in source order. -/
def patternsToRemove : List (List Tok) :=
  [patWord "BL",
   patWord "BLOCO",
   patWord "TORRE",
   patBdry "TIPO",
   patWord "APTO",
   patWord "APT",
   patWord "APARTAMENTO",
   patWord "SALA",
   patWord "LOJA",
   patBdry "COBERTURA",
   patBdry "GARDEN",
   patBdry "DUPLEX",
   patBdry "TRIPLEX",
   [Tok.ws, Tok.digits, Tok.lit ['Q'], Tok.bdry],
   [Tok.ws, Tok.digits, Tok.ws, Tok.lit "QUARTO".data, Tok.opt 'S'],
   [Tok.ws, Tok.lit "COM".data, Tok.ws, Tok.lit "TERRAÇO".data],
   patBdry "STUDIO",
   patBdry "LOFT",
   [Tok.ws, Tok.digits, Tok.ws, Tok.lit "SUÍTE".data, Tok.opt 'S', Tok.bdry]]

/-- The misspelling corrections applied before normalisation. -/
def misspellFixes : List (List Char × List Char) :=
  [("EMPPREENDIMENTO".data, "EMPREENDIMENTO".data),
   ("EMPREEENDIMENTO".data, "EMPREENDIMENTO".data),
   ("EMPRENDIMENTO".data, "EMPREENDIMENTO".data)]

/-- Source `^EMP_\d+$` (case-sensitive `str.match`): the sequential-code mask. -/
def isSeqCodeCS (l : List Char) : Bool :=
  (l.take 4 = "EMP_".data) && (l.drop 4 ≠ []) && (l.drop 4).all Char.isDigit

/-- The per-value computation of `extract_empreendimento_name`: misspelling
fixes, anchored generic-prefix strip + `strip()`, `upper()` + `strip()`,
the 19 suffix patterns each followed by `strip()`, and the final
assignment that keeps the suffix-stripped term only for non-`'N/A'`,
non-sequential-code values (sequential codes and `'N/A'` keep the
prefix-stripped column value). -/
def normalizeChars (l0 : List Char) : List Char :=
  let s1 := misspellFixes.foldl (fun l pr => replaceCI pr.1 pr.2 l) l0
  let s4 := stripWS (stripPre "RES".data (stripPre "RESIDENCIAL".data
    (stripPre "EMPREENDIMENTO".data s1)))
  let termo0 := stripWS (upperL s4)
  let termo := patternsToRemove.foldl (fun t p => stripWS (removeAll p t)) termo0
  if termo ≠ "N/A".data ∧ ¬ (isSeqCodeCS termo = true) then termo else s4

/-- Source `EMPREENDIMENTO_AGRUPADO` of one row: `fillna('N/A')` then
`normalizeChars`. -/
def normalizeName (emp : Option String) : String := ⟨normalizeChars (emp.getD "N/A").data⟩

/-- The canonical-name transform on strings (the map a second
normalisation pass would apply to a first pass's output). -/
def normalizeStr (s : String) : String := normalizeName (some s)

/-! ## `DashboardGenerator.get_projects_details`
and `LaunchDataManager.get_public_launch_counts`

The pandas pipeline: filter to launch-status rows with positive quantity,
non-null company/neighbourhood and canonical name ≠ `'N/A'`; sort by
period ascending; drop duplicates of `(year, name, company,
neighbourhood)` keeping the first; group the survivors by period.

`sort_values` uses an unstable quicksort; rows that tie on the period and
agree on the de-duplication key are interchangeable, and rows that tie on
the period with different keys never interact in `drop_duplicates`, so a
stable insertion sort produces the same per-month triple multisets (only
the intra-month listing order, which no claim concerns, could differ). -/
/-- A `(canonical name, company, neighbourhood)` triple. -/
abbrev Triple := String × String × String

/-- The filtered launch entries `(period, triple)` in row order. -/
def launchRows (rows : List Row) : List (Nat × Triple) :=
  rows.filterMap (fun r =>
    match r.empresa, r.bairro with
    | some emp, some b =>
        if r.ofertaVenda = launchStatus ∧ 0 < r.quantidade.getD 0 ∧
            normalizeName r.empreendimento ≠ "N/A"
        then some (r.anoMes, (normalizeName r.empreendimento, emp, b)) else none
    | _, _ => none)

/-- Sort by ascending period (`sort_values(period_col)`). -/
def sortedLaunch (rows : List Row) : List (Nat × Triple) :=
  (launchRows rows).insertionSort (fun a b => a.1 ≤ b.1)

/-- The de-duplication key `(ANO, EMPREENDIMENTO_AGRUPADO, EMPRESA,
BAIRRO)` of an entry. -/
def keyOf (e : Nat × Triple) : Nat × Triple := (yearOfPeriod e.1, e.2)

/-- Source `drop_duplicates(subset=[ANO, ...], keep='first')`: keep an entry iff
its key was not seen earlier in the list. -/
def dedupGo (seen : List (Nat × Triple)) : List (Nat × Triple) → List (Nat × Triple)
  | [] => []
  | e :: rest =>
      if keyOf e ∈ seen then dedupGo seen rest
      else e :: dedupGo (keyOf e :: seen) rest

/-- The `unique_historical` frame. -/
def uniqueHistorical (rows : List Row) : List (Nat × Triple) :=
  dedupGo [] (sortedLaunch rows)

/-- Source `groupby(period_col)` of a period-sorted list: group consecutive
entries of equal period (groups appear in ascending period order, as
pandas sorts group keys). -/
def groupByPeriod : List (Nat × Triple) → List (Nat × List Triple)
  | [] => []
  | (p, t) :: rest =>
      match groupByPeriod rest with
      | [] => [(p, [t])]
      | (p', ts) :: gs => if p = p' then (p, t :: ts) :: gs else (p, [t]) :: (p', ts) :: gs

/-- Source `get_projects_details`: month ↦ list of first-seen-this-year triples. -/
def projectsDetails (rows : List Row) : List (Nat × List Triple) :=
  groupByPeriod (uniqueHistorical rows)

/-- Raw launch-unit sum of a period, over the unfiltered frame
(`period_launches['QUANTIDADE'].sum()`). -/
def launchQtySum (rows : List Row) (p : Nat) : ℚ := qtySum rows [launchStatus] p

/-- Source `monthly_units` of `get_public_launch_counts`: built by iterating the
keys of `projects_details` (so only those months receive an entry),
`int(...)`-truncating each raw period sum. -/
def monthlyUnits (rows : List Row) : List (Nat × Int) :=
  (projectsDetails rows).map (fun g => (g.1, intTrunc (launchQtySum rows g.1)))

/-- Source `monthly_projects` of `get_public_launch_counts`: `len` of each month's
triple list. -/
def monthlyProjects (rows : List Row) : List (Nat × Nat) :=
  (projectsDetails rows).map (fun g => (g.1, g.2.length))

/-- Number of LaunchIndex entries equal to `t` across the months of
calendar year `y`. -/
def countInYear (gs : List (Nat × List Triple)) (y : Nat) (t : Triple) : Nat :=
  (gs.map (fun g => if yearOfPeriod g.1 = y then g.2.count t else 0)).sum

instance : IsTotal (Nat × Triple) (fun a b => a.1 ≤ b.1) :=
  ⟨fun a b => Nat.le_total a.1 b.1⟩

instance : IsTrans (Nat × Triple) (fun a b => a.1 ≤ b.1) :=
  ⟨fun _ _ _ h1 h2 => le_trans h1 h2⟩

/-- A launch row of the spec's example scenario: period `p`, `QUANTIDADE`
`q`, project name `name`, neighbourhood `"X"`, company `"E1"`. -/
def launchExRow (p : Nat) (q : ℚ) (name : String) : Row :=
  { anoMes := p, ofertaVenda := "OFERTADOS LANCAMENTOS", bairro := some "X",
    quantidade := some q, areaQuantidade := none, areaQuantidadeValor := none,
    qtdQuartos := none, empreendimento := some name, empresa := some "E1" }

/-- The two rows of the spec's §8 example scenario. -/
def specExampleRows : List Row :=
  [launchExRow 202101 10 "Residencial Alfa Bloco A", launchExRow 202102 5 "Alfa Bloco B"]

/-- The example rows plus the same canonical project again in 2022. -/
def exRowsC2 : List Row := specExampleRows ++ [launchExRow 202201 3 "Alfa Bloco C"]

/-- A launch row with a missing company field. -/
def exRowNoEmpresa : Row :=
  { anoMes := 202101, ofertaVenda := "OFERTADOS LANCAMENTOS", bairro := some "X",
    quantidade := some 7, areaQuantidade := none, areaQuantidadeValor := none,
    qtdQuartos := none, empreendimento := some "Beta", empresa := none }

/-- Monthly values of the quarter bucket `(y, q)`. -/
def quarterBucket (rows : List Row) (ofertaTypes : List String) (y q : Nat) : List ℚ :=
  bucketOf quarterKey (calculateIndicator rows ofertaTypes) (y, q)

/-- Monthly values of the year bucket `y`. -/
def yearBucket (rows : List Row) (ofertaTypes : List String) (y : Nat) : List ℚ :=
  bucketOf yearOfPeriod (calculateIndicator rows ofertaTypes) y

/-- A sold row (period `p`, `QUANTIDADE` `q`). -/
def exSold (p : Nat) (q : ℚ) : Row :=
  { anoMes := p, ofertaVenda := "VENDIDOS", bairro := some "X", quantidade := some q,
    areaQuantidade := none, areaQuantidadeValor := none, qtdQuartos := none,
    empreendimento := none, empresa := none }

/-- An offered row (period `p`, `QUANTIDADE` `q`). -/
def exOffer (p : Nat) (q : ℚ) : Row :=
  { anoMes := p, ofertaVenda := "OFERTADOS DISPONIVEIS", bairro := some "X",
    quantidade := some q, areaQuantidade := none, areaQuantidadeValor := none,
    qtdQuartos := none, empreendimento := none, empresa := none }

/-- January: 5 sold / 10 offered; February: 3 sold, no offers. -/
def exRowsC3 : List Row := [exSold 202101 5, exOffer 202101 10, exSold 202102 3]

/-- An offered row carrying `AREA_QUANTIDADE_VALOR = v` and
`AREA_QUANTIDADE = a`. -/
def exVal (p : Nat) (v a : ℚ) : Row :=
  { anoMes := p, ofertaVenda := "OFERTADOS DISPONIVEIS", bairro := some "X",
    quantidade := none, areaQuantidade := some a, areaQuantidadeValor := some v,
    qtdQuartos := none, empreendimento := none, empresa := none }

/-- January: 10 monetary units over 1 m² (ratio 10); February: 10 over
10 m² (ratio 1).  Re-weighted quarter: 20/11; mean of ratios: 11/2. -/
def exRowsC5 : List Row := [exVal 202101 10 1, exVal 202102 10 10]

/-- No case-insensitive occurrence of `pat` starts at any position of the
input. -/
def noMatchCI (pat : List Char) : List Char → Bool
  | [] => true
  | c :: cs => !(leadSegCI pat (c :: cs)) && noMatchCI pat cs

/-- No occurrence of the token pattern `p` starts at any position of the
input. -/
def noMatchTok (p : List Tok) : List Char → Bool
  | [] => true
  | c :: cs => (matchToks p (c :: cs)).isNone && noMatchTok p cs

/-- The three generic prefixes, in application order. -/
def genericPrefixes : List (List Char) :=
  ["EMPREENDIMENTO".data, "RESIDENCIAL".data, "RES".data]

/-- A sold row: 1,000,000 of sale value (VGV) in the Popular-tier
neighbourhood CEILÂNDIA. -/
def exRowC8 : Row :=
  { anoMes := 202101, ofertaVenda := "VENDIDOS", bairro := some "CEILÂNDIA",
    quantidade := none, areaQuantidade := none, areaQuantidadeValor := some 1000000,
    qtdQuartos := none, empreendimento := none, empresa := none }

/-! ### Theorems -/

theorem alookup_bump_self (m : List (κ × ℚ)) (k : κ) (v : ℚ) :
    alookup (bump m k v) k = some ((alookup m k).getD 0 + v) := by
  induction m with
  | nil => simp [bump, alookup]
  | cons h t ih =>
      obtain ⟨k', v'⟩ := h
      by_cases hk : k = k' <;> simp [bump, alookup, hk, ih]

theorem alookup_bump_ne (m : List (κ × ℚ)) (k k' : κ) (v : ℚ) (h : k' ≠ k) :
    alookup (bump m k v) k' = alookup m k' := by
  induction m with
  | nil => simp [bump, alookup, h]
  | cons hd t ih =>
      obtain ⟨k0, v0⟩ := hd
      by_cases hk : k = k0
      · subst hk; simp [bump, alookup, h]
      · by_cases hk' : k' = k0 <;> simp [bump, alookup, hk, hk', ih]

theorem alookup_bump2_self (m : List (κ × (ℚ × ℚ))) (k : κ) (v w : ℚ) :
    alookup (bump2 m k v w) k =
      some (((alookup m k).getD (0, 0)).1 + v, ((alookup m k).getD (0, 0)).2 + w) := by
  induction m with
  | nil => simp [bump2, alookup]
  | cons h t ih =>
      obtain ⟨k', p⟩ := h
      by_cases hk : k = k' <;> simp [bump2, alookup, hk, ih]

theorem alookup_bump2_ne (m : List (κ × (ℚ × ℚ))) (k k' : κ) (v w : ℚ) (h : k' ≠ k) :
    alookup (bump2 m k v w) k' = alookup m k' := by
  induction m with
  | nil => simp [bump2, alookup, h]
  | cons hd t ih =>
      obtain ⟨k0, p0⟩ := hd
      by_cases hk : k = k0
      · subst hk; simp [bump2, alookup, h]
      · by_cases hk' : k' = k0 <;> simp [bump2, alookup, hk, hk', ih]

theorem alookup_pushGroup_self (m : List (κ × List ℚ)) (k : κ) (v : ℚ) :
    alookup (pushGroup m k v) k = some ((alookup m k).getD [] ++ [v]) := by
  induction m with
  | nil => simp [pushGroup, alookup]
  | cons h t ih =>
      obtain ⟨k', vs⟩ := h
      by_cases hk : k = k' <;> simp [pushGroup, alookup, hk, ih]

theorem alookup_pushGroup_ne (m : List (κ × List ℚ)) (k k' : κ) (v : ℚ) (h : k' ≠ k) :
    alookup (pushGroup m k v) k' = alookup m k' := by
  induction m with
  | nil => simp [pushGroup, alookup, h]
  | cons hd t ih =>
      obtain ⟨k0, vs0⟩ := hd
      by_cases hk : k = k0
      · subst hk; simp [pushGroup, alookup, h]
      · by_cases hk' : k' = k0 <;> simp [pushGroup, alookup, hk, hk', ih]

/-- Lookup through a value-wise `map` over an association list. -/
theorem alookup_map_val {β γ : Type} (l : List (κ × β)) (f : β → γ) (k : κ) :
    alookup (l.map (fun e => (e.1, f e.2))) k = (alookup l k).map f := by
  induction l with
  | nil => simp [alookup]
  | cons h t ih =>
      obtain ⟨k', v⟩ := h
      by_cases hk : k = k' <;> simp [alookup, hk, ih]

theorem indicator_fold_lookup (ofertaTypes : List String) (rows : List Row)
    (m : List (Nat × ℚ)) (p : Nat) :
    alookup (rows.foldl
      (fun m r => if r.ofertaVenda ∈ ofertaTypes then bump m r.anoMes (r.quantidade.getD 0) else m)
      m) p =
    if matchingRows rows ofertaTypes p = [] then alookup m p
    else some ((alookup m p).getD 0 + qtySum rows ofertaTypes p) := by
  induction rows generalizing m with
  | nil => simp [matchingRows]
  | cons r rows ih =>
      by_cases hs : r.ofertaVenda ∈ ofertaTypes
      · by_cases hp : r.anoMes = p
        · have hm : matchingRows (r :: rows) ofertaTypes p =
              r :: matchingRows rows ofertaTypes p := by
            simp [matchingRows, hs, hp]
          have hq : qtySum (r :: rows) ofertaTypes p =
              r.quantidade.getD 0 + qtySum rows ofertaTypes p := by
            simp [qtySum, hm]
          subst hp
          rw [List.foldl_cons, if_pos hs, ih, hm, hq]
          by_cases hrest : matchingRows rows ofertaTypes r.anoMes = []
          · have hq0 : qtySum rows ofertaTypes r.anoMes = 0 := by simp [qtySum, hrest]
            rw [if_pos hrest, if_neg (List.cons_ne_nil _ _), alookup_bump_self, hq0]
            ring_nf
          · rw [if_neg hrest, if_neg (List.cons_ne_nil _ _), alookup_bump_self]
            simp only [Option.getD_some]
            ring_nf
        · have hm : matchingRows (r :: rows) ofertaTypes p =
              matchingRows rows ofertaTypes p := by
            simp [matchingRows, List.filter_cons, hp]
          have hq : qtySum (r :: rows) ofertaTypes p = qtySum rows ofertaTypes p := by
            simp [qtySum, hm]
          rw [List.foldl_cons, if_pos hs, ih, hm, hq,
            alookup_bump_ne _ _ _ _ (fun h => hp h.symm)]
      · have hm : matchingRows (r :: rows) ofertaTypes p =
            matchingRows rows ofertaTypes p := by
          simp [matchingRows, hs]
        have hq : qtySum (r :: rows) ofertaTypes p = qtySum rows ofertaTypes p := by
          simp [qtySum, hm]
        rw [List.foldl_cons, if_neg hs, ih, hm, hq]

/-- Lookup characterisation of `calculateIndicator`:
a period key is present iff a matching row exists, and its value is the
sum of the coerced `QUANTIDADE` of the matching rows. -/
theorem calculateIndicator_lookup (rows : List Row) (ofertaTypes : List String) (p : Nat) :
    alookup (calculateIndicator rows ofertaTypes) p =
    if matchingRows rows ofertaTypes p = [] then none
    else some (qtySum rows ofertaTypes p) := by
  have h := indicator_fold_lookup ofertaTypes rows [] p
  simp only [calculateIndicator, h, alookup]
  split <;> simp

theorem group_fold_lookup {κ : Type} [DecidableEq κ] (f : Nat → κ)
    (entries : List (Nat × ℚ)) (gs : List (κ × List ℚ)) (k : κ) :
    alookup (entries.foldl (fun gs e => pushGroup gs (f e.1) e.2) gs) k =
    if bucketOf f entries k = [] then alookup gs k
    else some ((alookup gs k).getD [] ++ bucketOf f entries k) := by
  induction entries generalizing gs with
  | nil => simp [bucketOf]
  | cons e entries ih =>
      by_cases hk : f e.1 = k
      · have hb : bucketOf f (e :: entries) k = e.2 :: bucketOf f entries k := by
          simp [bucketOf, List.filter_cons, hk]
        rw [List.foldl_cons, ih, hb]
        by_cases hrest : bucketOf f entries k = []
        · rw [if_pos hrest, if_neg (List.cons_ne_nil _ _), hrest]
          rw [hk, alookup_pushGroup_self]
        · rw [if_neg hrest, if_neg (List.cons_ne_nil _ _)]
          rw [hk, alookup_pushGroup_self]
          simp
      · have hb : bucketOf f (e :: entries) k = bucketOf f entries k := by
          simp [bucketOf, List.filter_cons, hk]
        rw [List.foldl_cons, ih, hb, alookup_pushGroup_ne _ _ _ _ (fun h => hk h.symm)]

/-- Quarterly lookup of `calculatePeriodAggregations`: the value at a
present quarter key is `aggValue isOferta` of the monthly values of that
quarter, and absent quarters have no key. -/
theorem calculatePeriodAggregations_quarterly (rows : List Row) (ofertaTypes : List String)
    (isOferta : Bool) (y q : Nat) :
    alookup (calculatePeriodAggregations rows ofertaTypes isOferta).quarterly (y, q) =
    if bucketOf quarterKey (calculateIndicator rows ofertaTypes) (y, q) = [] then none
    else some (aggValue isOferta
      (bucketOf quarterKey (calculateIndicator rows ofertaTypes) (y, q))) := by
  unfold calculatePeriodAggregations
  by_cases hm : calculateIndicator rows ofertaTypes = []
  · simp [hm, alookup, bucketOf]
  · simp only [hm, if_neg, if_false]
    rw [alookup_map_val, group_fold_lookup]
    by_cases hb : bucketOf quarterKey (calculateIndicator rows ofertaTypes) (y, q) = [] <;>
      simp [hb, alookup]

theorem ivvPeriods_fold_lookup (rows : List Row) (m : List (Nat × (ℚ × ℚ))) (p : Nat) :
    alookup (rows.foldl
      (fun m r =>
        if r.ofertaVenda ∈ vendidosTypes then bump2 m r.anoMes (r.quantidade.getD 0) 0
        else if r.ofertaVenda ∈ ofertadosTypes then bump2 m r.anoMes 0 (r.quantidade.getD 0)
        else bump2 m r.anoMes 0 0)
      m) p =
    if periodRows rows p = [] then alookup m p
    else some (((alookup m p).getD (0, 0)).1 + vendasSum rows p,
               ((alookup m p).getD (0, 0)).2 + ofertasSum rows p) := by
  induction rows generalizing m with
  | nil => simp [periodRows]
  | cons r rows ih =>
      have hstep : ∀ (m' : List (Nat × (ℚ × ℚ))),
          (if r.ofertaVenda ∈ vendidosTypes then bump2 m' r.anoMes (r.quantidade.getD 0) 0
           else if r.ofertaVenda ∈ ofertadosTypes then bump2 m' r.anoMes 0 (r.quantidade.getD 0)
           else bump2 m' r.anoMes 0 0) =
          bump2 m' r.anoMes
            (if r.ofertaVenda ∈ vendidosTypes then r.quantidade.getD 0 else 0)
            (if r.ofertaVenda ∈ vendidosTypes then 0
             else if r.ofertaVenda ∈ ofertadosTypes then r.quantidade.getD 0 else 0) := by
        intro m'
        by_cases h1 : r.ofertaVenda ∈ vendidosTypes
        · simp [h1]
        · by_cases h2 : r.ofertaVenda ∈ ofertadosTypes <;> simp [h1, h2]
      by_cases hp : r.anoMes = p
      · subst hp
        have hpr : periodRows (r :: rows) r.anoMes = r :: periodRows rows r.anoMes := by
          simp [periodRows, List.filter_cons]
        have hv : vendasSum (r :: rows) r.anoMes =
            (if r.ofertaVenda ∈ vendidosTypes then r.quantidade.getD 0 else 0) +
              vendasSum rows r.anoMes := by
          by_cases h1 : r.ofertaVenda ∈ vendidosTypes <;>
            simp [vendasSum, qtySum, matchingRows, List.filter_cons, h1]
        have hdisj : r.ofertaVenda ∈ vendidosTypes → r.ofertaVenda ∉ ofertadosTypes := by
          intro h1 h2
          simp [vendidosTypes] at h1
          rcases h1 with h1 | h1 <;> simp [h1, ofertadosTypes] at h2
        have ho : ofertasSum (r :: rows) r.anoMes =
            (if r.ofertaVenda ∈ vendidosTypes then 0
             else if r.ofertaVenda ∈ ofertadosTypes then r.quantidade.getD 0 else 0) +
              ofertasSum rows r.anoMes := by
          by_cases h1 : r.ofertaVenda ∈ vendidosTypes
          · simp [ofertasSum, qtySum, matchingRows, List.filter_cons, hdisj h1, h1]
          · by_cases h2 : r.ofertaVenda ∈ ofertadosTypes <;>
              simp [ofertasSum, qtySum, matchingRows, List.filter_cons, h1, h2]
        rw [List.foldl_cons, hstep, ih, hpr, hv, ho]
        by_cases hrest : periodRows rows r.anoMes = []
        · have hv0 : vendasSum rows r.anoMes = 0 := by
            have : matchingRows rows vendidosTypes r.anoMes = [] := by
              apply List.filter_eq_nil.2
              intro a ha
              have := List.filter_eq_nil.1 hrest a ha
              simp at this
              simp [this]
            simp [vendasSum, qtySum, this]
          have ho0 : ofertasSum rows r.anoMes = 0 := by
            have : matchingRows rows ofertadosTypes r.anoMes = [] := by
              apply List.filter_eq_nil.2
              intro a ha
              have := List.filter_eq_nil.1 hrest a ha
              simp at this
              simp [this]
            simp [ofertasSum, qtySum, this]
          rw [if_pos hrest, if_neg (List.cons_ne_nil _ _), alookup_bump2_self, hv0, ho0]
          simp
        · rw [if_neg hrest, if_neg (List.cons_ne_nil _ _), alookup_bump2_self]
          simp only [Option.getD_some, Option.some.injEq, Prod.mk.injEq]
          constructor <;> ring
      · have hpr : periodRows (r :: rows) p = periodRows rows p := by
          simp [periodRows, List.filter_cons, hp]
        have hv : vendasSum (r :: rows) p = vendasSum rows p := by
          simp [vendasSum, qtySum, matchingRows, List.filter_cons, hp]
        have ho : ofertasSum (r :: rows) p = ofertasSum rows p := by
          simp [ofertasSum, qtySum, matchingRows, List.filter_cons, hp]
        rw [List.foldl_cons, hstep, ih, hpr, hv, ho,
          alookup_bump2_ne _ _ _ _ _ (fun h => hp h.symm)]

/-- Lookup characterisation of `calculateIVV`: a period key is present iff
a row of that period exists (any status), and its value is the guarded
sales/offers ratio scaled by 100. -/
theorem calculateIVV_lookup (rows : List Row) (p : Nat) :
    alookup (calculateIVV rows) p =
    if periodRows rows p = [] then none
    else some (if 0 < ofertasSum rows p then vendasSum rows p / ofertasSum rows p * 100 else 0) := by
  unfold calculateIVV
  rw [alookup_map_val (ivvPeriods rows)
    (fun v : ℚ × ℚ => if 0 < v.2 then v.1 / v.2 * 100 else 0) p]
  unfold ivvPeriods
  rw [ivvPeriods_fold_lookup]
  by_cases h : periodRows rows p = [] <;> simp [h, alookup]

/-- Quarterly lookup of `calculateIVVPeriodAggregations`: arithmetic mean
of the monthly IVV values of the quarter. -/
theorem calculateIVVPeriodAggregations_quarterly (rows : List Row) (y q : Nat) :
    alookup (calculateIVVPeriodAggregations rows).quarterly (y, q) =
    if bucketOf quarterKey (calculateIVV rows) (y, q) = [] then none
    else some (ivvMean (bucketOf quarterKey (calculateIVV rows) (y, q))) := by
  unfold calculateIVVPeriodAggregations
  by_cases hm : calculateIVV rows = []
  · simp [hm, alookup, bucketOf]
  · simp only [hm, if_neg, if_false]
    rw [alookup_map_val, group_fold_lookup]
    by_cases hb : bucketOf quarterKey (calculateIVV rows) (y, q) = [] <;>
      simp [hb, alookup]

/-- Yearly lookup of `calculateIVVPeriodAggregations`. -/
theorem calculateIVVPeriodAggregations_yearly (rows : List Row) (y : Nat) :
    alookup (calculateIVVPeriodAggregations rows).yearly y =
    if bucketOf yearOfPeriod (calculateIVV rows) y = [] then none
    else some (ivvMean (bucketOf yearOfPeriod (calculateIVV rows) y)) := by
  unfold calculateIVVPeriodAggregations
  by_cases hm : calculateIVV rows = []
  · simp [hm, alookup, bucketOf]
  · simp only [hm, if_neg, if_false]
    rw [alookup_map_val, group_fold_lookup]
    by_cases hb : bucketOf yearOfPeriod (calculateIVV rows) y = [] <;>
      simp [hb, alookup]

theorem valorMonthlyData_fold_lookup (ofertaTypes : List String) (rows : List Row)
    (m : List (Nat × (ℚ × ℚ))) (p : Nat) :
    alookup (rows.foldl
      (fun m r =>
        if valorRowOk ofertaTypes r then
          bump2 m r.anoMes (r.areaQuantidadeValor.getD 0) (r.areaQuantidade.getD 0)
        else m)
      m) p =
    if valorRows rows ofertaTypes p = [] then alookup m p
    else some (((alookup m p).getD (0, 0)).1 + valorSum rows ofertaTypes p,
               ((alookup m p).getD (0, 0)).2 + areaSum rows ofertaTypes p) := by
  induction rows generalizing m with
  | nil => simp [valorRows]
  | cons r rows ih =>
      by_cases hs : valorRowOk ofertaTypes r
      · by_cases hp : r.anoMes = p
        · subst hp
          have hpr : valorRows (r :: rows) ofertaTypes r.anoMes =
              r :: valorRows rows ofertaTypes r.anoMes := by
            simp [valorRows, List.filter_cons, hs]
          have hv : valorSum (r :: rows) ofertaTypes r.anoMes =
              r.areaQuantidadeValor.getD 0 + valorSum rows ofertaTypes r.anoMes := by
            simp [valorSum, hpr]
          have ha : areaSum (r :: rows) ofertaTypes r.anoMes =
              r.areaQuantidade.getD 0 + areaSum rows ofertaTypes r.anoMes := by
            simp [areaSum, hpr]
          rw [List.foldl_cons, if_pos hs, ih, hpr, hv, ha]
          by_cases hrest : valorRows rows ofertaTypes r.anoMes = []
          · have hv0 : valorSum rows ofertaTypes r.anoMes = 0 := by
              simp [valorSum, hrest]
            have ha0 : areaSum rows ofertaTypes r.anoMes = 0 := by
              simp [areaSum, hrest]
            rw [if_pos hrest, if_neg (List.cons_ne_nil _ _), alookup_bump2_self, hv0, ha0]
            simp
          · rw [if_neg hrest, if_neg (List.cons_ne_nil _ _), alookup_bump2_self]
            simp only [Option.getD_some, Option.some.injEq, Prod.mk.injEq]
            constructor <;> ring
        · have hpr : valorRows (r :: rows) ofertaTypes p = valorRows rows ofertaTypes p := by
            simp [valorRows, List.filter_cons, hp]
          have hv : valorSum (r :: rows) ofertaTypes p = valorSum rows ofertaTypes p := by
            simp [valorSum, hpr]
          have ha : areaSum (r :: rows) ofertaTypes p = areaSum rows ofertaTypes p := by
            simp [areaSum, hpr]
          rw [List.foldl_cons, if_pos hs, ih, hpr, hv, ha,
            alookup_bump2_ne _ _ _ _ _ (fun h => hp h.symm)]
      · have hpr : valorRows (r :: rows) ofertaTypes p = valorRows rows ofertaTypes p := by
          simp [valorRows, List.filter_cons, hs]
        have hv : valorSum (r :: rows) ofertaTypes p = valorSum rows ofertaTypes p := by
          simp [valorSum, hpr]
        have ha : areaSum (r :: rows) ofertaTypes p = areaSum rows ofertaTypes p := by
          simp [areaSum, hpr]
        rw [List.foldl_cons, if_neg hs, ih, hpr, hv, ha]

/-- Lookup characterisation of the `monthlyData` sums. -/
theorem valorMonthlyData_lookup (rows : List Row) (ofertaTypes : List String) (p : Nat) :
    alookup (valorMonthlyData rows ofertaTypes) p =
    if valorRows rows ofertaTypes p = [] then none
    else some (valorSum rows ofertaTypes p, areaSum rows ofertaTypes p) := by
  have h := valorMonthlyData_fold_lookup ofertaTypes rows [] p
  simp only [valorMonthlyData, h, alookup]
  split <;> simp

theorem mem_bump2_pos {κ : Type} [DecidableEq κ] (m : List (κ × (ℚ × ℚ))) (k : κ) (v w : ℚ)
    (hm : ∀ e ∈ m, 0 < e.2.2) (hw : 0 < w) : ∀ e ∈ bump2 m k v w, 0 < e.2.2 := by
  induction m with
  | nil => simpa [bump2] using hw
  | cons hd t ih =>
      obtain ⟨k0, p0⟩ := hd
      intro e he
      by_cases hk : k = k0
      · simp only [bump2, if_pos hk, List.mem_cons] at he
        rcases he with he | he
        · subst he
          have := hm (k0, p0) (by simp)
          simp only at this ⊢
          positivity
        · exact hm e (List.mem_cons_of_mem _ he)
      · simp only [bump2, if_neg hk, List.mem_cons] at he
        rcases he with he | he
        · subst he; exact hm (k0, p0) (by simp)
        · exact ih (fun e' he' => hm e' (List.mem_cons_of_mem _ he')) e he

/-- Every `monthlyData` entry has strictly positive accumulated area
(each contribution is filtered to be positive). -/
theorem valorMonthlyData_pos (rows : List Row) (ofertaTypes : List String) :
    ∀ e ∈ valorMonthlyData rows ofertaTypes, 0 < e.2.2 := by
  unfold valorMonthlyData
  generalize hm : ([] : List (Nat × (ℚ × ℚ))) = m
  have hbase : ∀ e ∈ m, 0 < e.2.2 := by rw [← hm]; simp
  clear hm
  induction rows generalizing m with
  | nil => simpa using hbase
  | cons r rows ih =>
      rw [List.foldl_cons]
      by_cases hs : valorRowOk ofertaTypes r
      · rw [if_pos hs]
        exact ih _ (mem_bump2_pos _ _ _ _ hbase hs.2.2)
      · rw [if_neg hs]
        exact ih _ hbase

theorem filterMap_pos_eq_map (l : List (Nat × (ℚ × ℚ))) (hl : ∀ e ∈ l, 0 < e.2.2) :
    l.filterMap (fun e => if 0 < e.2.2 then some (e.1, e.2.1 / e.2.2) else none) =
    l.map (fun e => (e.1, e.2.1 / e.2.2)) := by
  induction l with
  | nil => rfl
  | cons e t ih =>
      rw [List.filterMap_cons, List.map_cons]
      rw [if_pos (hl e (by simp))]
      rw [ih (fun e' he' => hl e' (List.mem_cons_of_mem _ he'))]

theorem group2_fold_lookup {κ : Type} [DecidableEq κ] (f : Nat → κ)
    (entries : List (Nat × (ℚ × ℚ))) (gs : List (κ × (ℚ × ℚ))) (k : κ) :
    alookup (entries.foldl (fun gs e => bump2 gs (f e.1) e.2.1 e.2.2) gs) k =
    if bucket2 f entries k = [] then alookup gs k
    else some (((alookup gs k).getD (0, 0)).1 + ((bucket2 f entries k).map (fun e => e.2.1)).sum,
               ((alookup gs k).getD (0, 0)).2 + ((bucket2 f entries k).map (fun e => e.2.2)).sum) := by
  induction entries generalizing gs with
  | nil => simp [bucket2]
  | cons e entries ih =>
      by_cases hk : f e.1 = k
      · have hb : bucket2 f (e :: entries) k = e :: bucket2 f entries k := by
          simp [bucket2, List.filter_cons, hk]
        rw [List.foldl_cons, ih, hb]
        by_cases hrest : bucket2 f entries k = []
        · rw [if_pos hrest, if_neg (List.cons_ne_nil _ _), hrest]
          rw [hk, alookup_bump2_self]
          simp
        · rw [if_neg hrest, if_neg (List.cons_ne_nil _ _)]
          rw [hk, alookup_bump2_self]
          simp only [Option.getD_some, Option.some.injEq, Prod.mk.injEq,
            List.map_cons, List.sum_cons]
          constructor <;> ring
      · have hb : bucket2 f (e :: entries) k = bucket2 f entries k := by
          simp [bucket2, List.filter_cons, hk]
        rw [List.foldl_cons, ih, hb, alookup_bump2_ne _ _ _ _ _ (fun h => hk h.symm)]

/-- Monthly lookup of `calculateValorPonderadoPeriodAggregations`:
`Σ(value×qty) / Σ(qty)` over the contributing rows of the month. -/
theorem valorPonderado_monthly_lookup (rows : List Row) (ofertaTypes : List String) (p : Nat) :
    alookup (calculateValorPonderadoPeriodAggregations rows ofertaTypes).monthly p =
    if valorRows rows ofertaTypes p = [] then none
    else some (valorSum rows ofertaTypes p / areaSum rows ofertaTypes p) := by
  unfold calculateValorPonderadoPeriodAggregations
  simp only [filterMap_pos_eq_map _ (valorMonthlyData_pos rows ofertaTypes)]
  by_cases hd : valorMonthlyData rows ofertaTypes = []
  · have : ∀ p, valorRows rows ofertaTypes p = [] := by
      intro p'
      by_contra hne
      have := valorMonthlyData_lookup rows ofertaTypes p'
      rw [if_neg hne, hd] at this
      simp [alookup] at this
    simp [hd, this p, alookup]
  · have hmne : (valorMonthlyData rows ofertaTypes).map (fun e => (e.1, e.2.1 / e.2.2)) ≠ [] := by
      simpa using hd
    simp only [hmne, if_neg, if_false]
    rw [alookup_map_val (valorMonthlyData rows ofertaTypes) (fun v : ℚ × ℚ => v.1 / v.2) p,
      valorMonthlyData_lookup]
    by_cases hr : valorRows rows ofertaTypes p = [] <;> simp [hr]

/-- Quarterly lookup of `calculateValorPonderadoPeriodAggregations`:
ratio of the summed raw month totals of the quarter (re-weighted, not an
average of monthly ratios). -/
theorem valorPonderado_quarterly_lookup (rows : List Row) (ofertaTypes : List String)
    (y q : Nat) :
    alookup (calculateValorPonderadoPeriodAggregations rows ofertaTypes).quarterly (y, q) =
    if bucket2 quarterKey (valorMonthlyData rows ofertaTypes) (y, q) = [] then none
    else some
      (((bucket2 quarterKey (valorMonthlyData rows ofertaTypes) (y, q)).map (fun e => e.2.1)).sum /
       ((bucket2 quarterKey (valorMonthlyData rows ofertaTypes) (y, q)).map (fun e => e.2.2)).sum) := by
  unfold calculateValorPonderadoPeriodAggregations
  simp only [filterMap_pos_eq_map _ (valorMonthlyData_pos rows ofertaTypes)]
  by_cases hd : valorMonthlyData rows ofertaTypes = []
  · simp [hd, alookup, bucket2]
  · have hmne : (valorMonthlyData rows ofertaTypes).map (fun e => (e.1, e.2.1 / e.2.2)) ≠ [] := by
      simpa using hd
    simp only [hmne, if_neg, if_false]
    rw [alookup_map_val _ (fun v : ℚ × ℚ => if 0 < v.2 then v.1 / v.2 else 0) ((y, q) : Nat × Nat),
      group2_fold_lookup]
    by_cases hb : bucket2 quarterKey (valorMonthlyData rows ofertaTypes) (y, q) = []
    · simp [hb, alookup]
    · have hpos : 0 < ((bucket2 quarterKey (valorMonthlyData rows ofertaTypes) (y, q)).map
          (fun e => e.2.2)).sum := by
        apply List.sum_pos
        · intro x hx
          obtain ⟨e, he, rfl⟩ := List.mem_map.1 hx
          exact valorMonthlyData_pos rows ofertaTypes e (List.mem_of_mem_filter he)
        · simpa using hb
      simp [hb, alookup, hpos]

/-- Yearly lookup of `calculateValorPonderadoPeriodAggregations`. -/
theorem valorPonderado_yearly_lookup (rows : List Row) (ofertaTypes : List String) (y : Nat) :
    alookup (calculateValorPonderadoPeriodAggregations rows ofertaTypes).yearly y =
    if bucket2 yearOfPeriod (valorMonthlyData rows ofertaTypes) y = [] then none
    else some
      (((bucket2 yearOfPeriod (valorMonthlyData rows ofertaTypes) y).map (fun e => e.2.1)).sum /
       ((bucket2 yearOfPeriod (valorMonthlyData rows ofertaTypes) y).map (fun e => e.2.2)).sum) := by
  unfold calculateValorPonderadoPeriodAggregations
  simp only [filterMap_pos_eq_map _ (valorMonthlyData_pos rows ofertaTypes)]
  by_cases hd : valorMonthlyData rows ofertaTypes = []
  · simp [hd, alookup, bucket2]
  · have hmne : (valorMonthlyData rows ofertaTypes).map (fun e => (e.1, e.2.1 / e.2.2)) ≠ [] := by
      simpa using hd
    simp only [hmne, if_neg, if_false]
    rw [alookup_map_val _ (fun v : ℚ × ℚ => if 0 < v.2 then v.1 / v.2 else 0) y,
      group2_fold_lookup]
    by_cases hb : bucket2 yearOfPeriod (valorMonthlyData rows ofertaTypes) y = []
    · simp [hb, alookup]
    · have hpos : 0 < ((bucket2 yearOfPeriod (valorMonthlyData rows ofertaTypes) y).map
          (fun e => e.2.2)).sum := by
        apply List.sum_pos
        · intro x hx
          obtain ⟨e, he, rfl⟩ := List.mem_map.1 hx
          exact valorMonthlyData_pos rows ofertaTypes e (List.mem_of_mem_filter he)
        · simpa using hb
      simp [hb, alookup, hpos]

theorem ltHi_some (v hi : ℚ) : ltHi v (some hi) ↔ v < hi := Iff.rfl

theorem ltHi_none (v : ℚ) : ltHi v none ↔ True := Iff.rfl

theorem leHi_some (v hi : ℚ) : leHi v (some hi) ↔ v ≤ hi := Iff.rfl

theorem leHi_none (v : ℚ) : leHi v none ↔ True := Iff.rfl

theorem gastos_fold_lookup (rows : List Row) (m : List ((String × String) × ℚ))
    (b q : String) (hb : b ≠ "") :
    alookup (rows.foldl
      (fun m r =>
        if r.bairro.getD "" = "" then m
        else if r.ofertaVenda ∈ vendidosTypes then bump m (r.bairro.getD "", qVal r) (rowSpend r)
        else m)
      m) (b, q) =
    if soldCellRows rows b q = [] then alookup m (b, q)
    else some ((alookup m (b, q)).getD 0 + cellSpendSum rows b q) := by
  induction rows generalizing m with
  | nil => simp [soldCellRows]
  | cons r rows ih =>
      by_cases hskip : r.bairro.getD "" = ""
      · have hnr : ¬(r.ofertaVenda ∈ vendidosTypes ∧ r.bairro.getD "" = b ∧ qVal r = q) := by
          rintro ⟨-, h2, -⟩; exact hb (h2 ▸ hskip)
        have hcell : soldCellRows (r :: rows) b q = soldCellRows rows b q := by
          simp only [soldCellRows, List.filter_cons]
          simp [hnr]
        have hsum : cellSpendSum (r :: rows) b q = cellSpendSum rows b q := by
          simp [cellSpendSum, hcell]
        rw [List.foldl_cons, if_pos hskip, ih, hcell, hsum]
      · by_cases hst : r.ofertaVenda ∈ vendidosTypes
        · by_cases hkey : r.bairro.getD "" = b ∧ qVal r = q
          · have hcell : soldCellRows (r :: rows) b q = r :: soldCellRows rows b q := by
              simp only [soldCellRows, List.filter_cons]
              simp [hst, hkey.1, hkey.2]
            have hsum : cellSpendSum (r :: rows) b q = rowSpend r + cellSpendSum rows b q := by
              simp [cellSpendSum, hcell]
            rw [List.foldl_cons, if_neg hskip, if_pos hst, hkey.1, hkey.2, ih, hcell, hsum]
            by_cases hrest : soldCellRows rows b q = []
            · have h0 : cellSpendSum rows b q = 0 := by simp [cellSpendSum, hrest]
              rw [if_pos hrest, if_neg (List.cons_ne_nil _ _), alookup_bump_self, h0]
              ring_nf
            · rw [if_neg hrest, if_neg (List.cons_ne_nil _ _), alookup_bump_self]
              simp only [Option.getD_some]
              ring_nf
          · have hne : ((b, q) : String × String) ≠ (r.bairro.getD "", qVal r) := by
              intro h
              apply hkey
              exact ⟨(congrArg Prod.fst h).symm, (congrArg Prod.snd h).symm⟩
            have hnr : ¬(r.ofertaVenda ∈ vendidosTypes ∧ r.bairro.getD "" = b ∧ qVal r = q) := by
              rintro ⟨-, h2, h3⟩; exact hkey ⟨h2, h3⟩
            have hcell : soldCellRows (r :: rows) b q = soldCellRows rows b q := by
              simp only [soldCellRows, List.filter_cons]
              simp [hnr]
            have hsum : cellSpendSum (r :: rows) b q = cellSpendSum rows b q := by
              simp [cellSpendSum, hcell]
            rw [List.foldl_cons, if_neg hskip, if_pos hst, ih, hcell, hsum,
              alookup_bump_ne _ _ _ _ hne]
        · have hnr : ¬(r.ofertaVenda ∈ vendidosTypes ∧ r.bairro.getD "" = b ∧ qVal r = q) := by
            rintro ⟨h1, -, -⟩; exact hst h1
          have hcell : soldCellRows (r :: rows) b q = soldCellRows rows b q := by
            simp only [soldCellRows, List.filter_cons]
            simp [hnr]
          have hsum : cellSpendSum (r :: rows) b q = cellSpendSum rows b q := by
            simp [cellSpendSum, hcell]
          rw [List.foldl_cons, if_neg hskip, if_neg hst, ih, hcell, hsum]

/-- Lookup characterisation of `gastos_pos_entrega`: the cell of a
non-empty neighbourhood holds the sum of `VGV × tier-percentage` over its
sold rows. -/
theorem gastosPosEntrega_lookup (rows : List Row) (b q : String) (hb : b ≠ "") :
    alookup (gastosPosEntrega rows) (b, q) =
    if soldCellRows rows b q = [] then none else some (cellSpendSum rows b q) := by
  have h := gastos_fold_lookup rows [] b q hb
  simp only [gastosPosEntrega, h, alookup]
  split <;> simp

/-- The per-category weights sum to the tier totals: 25 % (`Alto`),
15 % (`Médio` / default), 10 % (`Popular`), for every tier string. -/
theorem categorias_sum (padrao : String) :
    ((categorias.map (catWeight padrao)).sum) = cbicPct padrao := by
  by_cases hA : padrao = "Alto"
  · subst hA
    have h1 : ¬("Alto" : String) = "Popular" := by decide
    norm_num [categorias, catWeight, cbicPct, h1]
  · by_cases hP : padrao = "Popular"
    · subst hP
      have h2 : ¬("Popular" : String) = "Alto" := by decide
      norm_num [categorias, catWeight, cbicPct, h2]
    · simp only [categorias, catWeight, cbicPct, hA, hP, if_false, List.map_cons,
        List.map_nil, List.sum_cons, List.sum_nil]
      norm_num

theorem cbicPct_ne_zero (padrao : String) : cbicPct padrao ≠ 0 := by
  unfold cbicPct
  split
  · norm_num
  · split <;> norm_num

/-- Table-8 reconciliation: the 8 category entries of a neighbourhood sum
exactly to its total post-delivery spend. -/
theorem spendByCategory_sum (rows : List Row) (b : String) :
    (spendByCategory rows b).sum = regiaoGastosTotal rows b := by
  unfold spendByCategory vgvReconstruido
  rw [List.sum_map_mul_left, categorias_sum]
  rw [div_mul_cancel₀]
  exact cbicPct_ne_zero _

/-- Yearly lookup of `calculatePeriodAggregations`. -/
theorem calculatePeriodAggregations_yearly (rows : List Row) (ofertaTypes : List String)
    (isOferta : Bool) (y : Nat) :
    alookup (calculatePeriodAggregations rows ofertaTypes isOferta).yearly y =
    if bucketOf yearOfPeriod (calculateIndicator rows ofertaTypes) y = [] then none
    else some (aggValue isOferta
      (bucketOf yearOfPeriod (calculateIndicator rows ofertaTypes) y)) := by
  unfold calculatePeriodAggregations
  by_cases hm : calculateIndicator rows ofertaTypes = []
  · simp [hm, alookup, bucketOf]
  · simp only [hm, if_neg, if_false]
    rw [alookup_map_val, group_fold_lookup]
    by_cases hb : bucketOf yearOfPeriod (calculateIndicator rows ofertaTypes) y = [] <;>
      simp [hb, alookup]

theorem key_iff (p : Nat) (t0 t : Triple) (y : Nat) :
    keyOf (p, t0) = (y, t) ↔ yearOfPeriod p = y ∧ t0 = t := by
  simp [keyOf, Prod.ext_iff]

theorem groupByPeriod_cons_nil (p : Nat) (t : Triple) (rest : List (Nat × Triple))
    (h : groupByPeriod rest = []) :
    groupByPeriod ((p, t) :: rest) = [(p, [t])] := by
  rw [groupByPeriod, h]

theorem groupByPeriod_cons_cons (p : Nat) (t : Triple) (rest : List (Nat × Triple))
    (p' : Nat) (ts : List Triple) (gs : List (Nat × List Triple))
    (h : groupByPeriod rest = (p', ts) :: gs) :
    groupByPeriod ((p, t) :: rest) =
      if p = p' then (p, t :: ts) :: gs else (p, [t]) :: (p', ts) :: gs := by
  rw [groupByPeriod, h]

theorem groupByPeriod_eq_nil (l : List (Nat × Triple)) : groupByPeriod l = [] ↔ l = [] := by
  cases l with
  | nil => simp [groupByPeriod]
  | cons e rest =>
      obtain ⟨p, t⟩ := e
      simp only [groupByPeriod]
      cases hG : groupByPeriod rest with
      | nil => simp
      | cons g gs =>
          obtain ⟨p', ts⟩ := g
          by_cases hp : p = p' <;> simp [hp]

theorem countInYear_cons (g : Nat × List Triple) (gs : List (Nat × List Triple))
    (y : Nat) (t : Triple) :
    countInYear (g :: gs) y t =
      (if yearOfPeriod g.1 = y then g.2.count t else 0) + countInYear gs y t := by
  simp [countInYear]

theorem countInYear_groupByPeriod (l : List (Nat × Triple)) (y : Nat) (t : Triple) :
    countInYear (groupByPeriod l) y t = l.countP (fun e => decide (keyOf e = (y, t))) := by
  induction l with
  | nil => simp [groupByPeriod, countInYear]
  | cons e rest ih =>
      obtain ⟨p, t0⟩ := e
      rw [List.countP_cons]
      cases hG : groupByPeriod rest with
      | nil =>
          have hrest : rest = [] := (groupByPeriod_eq_nil rest).1 hG
          subst hrest
          rw [groupByPeriod_cons_nil _ _ _ hG]
          simp only [List.countP_nil]
          rw [countInYear_cons]
          simp only [countInYear, List.map_nil, List.sum_nil]
          by_cases h1 : yearOfPeriod p = y
          · by_cases h2 : t0 = t
            · simp [key_iff, h1, h2, List.count_cons]
            · simp [key_iff, h1, h2, List.count_cons, List.count_nil]
          · simp [key_iff, h1]
      | cons g gs =>
          obtain ⟨p', ts⟩ := g
          rw [hG] at ih
          rw [groupByPeriod_cons_cons _ _ _ _ _ _ hG]
          rw [countInYear_cons] at ih
          rw [← ih]
          simp only [decide_eq_true_eq]
          by_cases hp : p = p'
          · rw [if_pos hp, countInYear_cons]
            subst hp
            by_cases h1 : yearOfPeriod p = y
            · by_cases h2 : t0 = t
              · have hkey : keyOf (p, t0) = (y, t) := (key_iff p t0 t y).2 ⟨h1, h2⟩
                rw [if_pos hkey]
                simp [h1, List.count_cons, h2]
                omega
              · have hkey : ¬keyOf (p, t0) = (y, t) := by
                  rw [key_iff]; exact fun hc => h2 hc.2
                rw [if_neg hkey]
                simp [h1, List.count_cons, h2]
            · have hkey : ¬keyOf (p, t0) = (y, t) := by
                rw [key_iff]; exact fun hc => h1 hc.1
              rw [if_neg hkey]
              simp [h1]
          · rw [if_neg hp, countInYear_cons, countInYear_cons]
            by_cases h1 : yearOfPeriod p = y
            · by_cases h2 : t0 = t
              · have hkey : keyOf (p, t0) = (y, t) := (key_iff p t0 t y).2 ⟨h1, h2⟩
                rw [if_pos hkey]
                simp [h1, h2]
                omega
              · have hkey : ¬keyOf (p, t0) = (y, t) := by
                  rw [key_iff]; exact fun hc => h2 hc.2
                rw [if_neg hkey]
                simp [h1, h2, List.count_cons]
            · have hkey : ¬keyOf (p, t0) = (y, t) := by
                rw [key_iff]; exact fun hc => h1 hc.1
              rw [if_neg hkey]
              simp [h1]

theorem dedupGo_countP (l : List (Nat × Triple)) (seen : List (Nat × Triple))
    (k : Nat × Triple) :
    (dedupGo seen l).countP (fun e => decide (keyOf e = k)) =
    if k ∈ seen then 0 else min 1 (l.countP (fun e => decide (keyOf e = k))) := by
  induction l generalizing seen with
  | nil =>
      rw [dedupGo]
      simp only [List.countP_nil]
      split <;> simp
  | cons e rest ih =>
      by_cases hseen : keyOf e ∈ seen
      · rw [dedupGo, if_pos hseen, ih, List.countP_cons]
        by_cases hk : keyOf e = k
        · rw [if_pos (hk ▸ hseen), if_pos (hk ▸ hseen)]
        · simp only [decide_eq_true_eq, hk, if_false]
          rfl
      · rw [dedupGo, if_neg hseen, List.countP_cons, ih, List.countP_cons]
        by_cases hk : keyOf e = k
        · have hmem : k ∈ keyOf e :: seen := by rw [← hk]; exact List.mem_cons_self _ _
          have hns : k ∉ seen := hk ▸ hseen
          rw [if_pos hmem, if_neg hns]
          simp [hk]
        · have : (k ∈ keyOf e :: seen) ↔ k ∈ seen := by
            constructor
            · intro h
              rcases List.mem_cons.1 h with h | h
              · exact absurd h.symm hk
              · exact h
            · exact List.mem_cons_of_mem _
          simp only [decide_eq_true_eq, hk, if_false]
          by_cases hks : k ∈ seen
          · rw [if_pos (this.2 hks), if_pos hks]
          · rw [if_neg (fun h => hks (this.1 h)), if_neg hks]
            simp

theorem mem_of_mem_dedupGo (l : List (Nat × Triple)) (seen : List (Nat × Triple))
    (e : Nat × Triple) (he : e ∈ dedupGo seen l) : e ∈ l := by
  induction l generalizing seen with
  | nil => rw [dedupGo] at he; cases he
  | cons e0 rest ih =>
      by_cases hseen : keyOf e0 ∈ seen
      · rw [dedupGo, if_pos hseen] at he
        exact List.mem_cons_of_mem _ (ih _ he)
      · rw [dedupGo, if_neg hseen] at he
        rcases List.mem_cons.1 he with h | h
        · exact h ▸ List.mem_cons_self _ _
        · exact List.mem_cons_of_mem _ (ih _ h)

theorem dedupGo_first (l : List (Nat × Triple)) (seen : List (Nat × Triple))
    (k : Nat × Triple) (hsort : List.Sorted (fun a b => a.1 ≤ b.1) l)
    (hns : k ∉ seen) (hex : ∃ e ∈ l, keyOf e = k) :
    ∃ e, e ∈ dedupGo seen l ∧ keyOf e = k ∧
      ∀ e' ∈ l, keyOf e' = k → e.1 ≤ e'.1 := by
  induction l generalizing seen with
  | nil => simp at hex
  | cons e0 rest ih =>
      rw [List.sorted_cons] at hsort
      by_cases hk0 : keyOf e0 = k
      · have h0 : keyOf e0 ∉ seen := hk0 ▸ hns
        refine ⟨e0, ?_, hk0, ?_⟩
        · rw [dedupGo, if_neg h0]
          exact List.mem_cons_self _ _
        · intro e' he' _
          rcases List.mem_cons.1 he' with h | h
          · exact h ▸ le_refl _
          · exact hsort.1 e' h
      · obtain ⟨w, hw, hwk⟩ := hex
        rcases List.mem_cons.1 hw with h | h
        · exact absurd (h ▸ hwk) hk0
        · by_cases hseen0 : keyOf e0 ∈ seen
          · rw [dedupGo, if_pos hseen0]
            obtain ⟨e, he1, he2, he3⟩ := ih seen hsort.2 hns ⟨w, h, hwk⟩
            refine ⟨e, he1, he2, ?_⟩
            intro e' he' hk'
            rcases List.mem_cons.1 he' with h' | h'
            · exact absurd (h' ▸ hk') hk0
            · exact he3 e' h' hk'
          · rw [dedupGo, if_neg hseen0]
            have hns' : k ∉ keyOf e0 :: seen := by
              intro hmem
              rcases List.mem_cons.1 hmem with h' | h'
              · exact hk0 h'.symm
              · exact hns h'
            obtain ⟨e, he1, he2, he3⟩ := ih (keyOf e0 :: seen) hsort.2 hns' ⟨w, h, hwk⟩
            refine ⟨e, List.mem_cons_of_mem _ he1, he2, ?_⟩
            intro e' he' hk'
            rcases List.mem_cons.1 he' with h' | h'
            · exact absurd (h' ▸ hk') hk0
            · exact he3 e' h' hk'

theorem mem_groupByPeriod (l : List (Nat × Triple)) (e : Nat × Triple) (he : e ∈ l) :
    ∃ ts, (e.1, ts) ∈ groupByPeriod l ∧ e.2 ∈ ts := by
  induction l with
  | nil => cases he
  | cons e0 rest ih =>
      obtain ⟨p, t0⟩ := e0
      rcases List.mem_cons.1 he with h | h
      · subst h
        cases hG : groupByPeriod rest with
        | nil =>
            rw [groupByPeriod_cons_nil _ _ _ hG]
            exact ⟨[t0], by simp, by simp⟩
        | cons g gs =>
            obtain ⟨p', ts⟩ := g
            rw [groupByPeriod_cons_cons _ _ _ _ _ _ hG]
            by_cases hp : p = p'
            · rw [if_pos hp]
              exact ⟨t0 :: ts, List.mem_cons_self _ _, List.mem_cons_self _ _⟩
            · rw [if_neg hp]
              exact ⟨[t0], List.mem_cons_self _ _, List.mem_cons_self _ _⟩
      · obtain ⟨ts, hts, hmem⟩ := ih h
        cases hG : groupByPeriod rest with
        | nil =>
            rw [hG] at hts
            cases hts
        | cons g gs =>
            obtain ⟨p', ts'⟩ := g
            rw [groupByPeriod_cons_cons _ _ _ _ _ _ hG]
            rw [hG] at hts
            by_cases hp : p = p'
            · rw [if_pos hp]
              rcases List.mem_cons.1 hts with h' | h'
              · have h1 : e.1 = p' := congrArg Prod.fst h'
                have h2 : ts = ts' := congrArg Prod.snd h'
                refine ⟨t0 :: ts', ?_, ?_⟩
                · rw [show (p, t0 :: ts') = (e.1, t0 :: ts') from by rw [h1, hp]]
                  exact List.mem_cons_self _ _
                · exact List.mem_cons_of_mem _ (h2 ▸ hmem)
              · exact ⟨ts, List.mem_cons_of_mem _ h', hmem⟩
            · rw [if_neg hp]
              exact ⟨ts, List.mem_cons_of_mem _ hts, hmem⟩

theorem sortedLaunch_sorted (rows : List Row) :
    List.Sorted (fun a b => a.1 ≤ b.1) (sortedLaunch rows) :=
  List.sorted_insertionSort _ _

theorem sortedLaunch_perm (rows : List Row) :
    (sortedLaunch rows).Perm (launchRows rows) :=
  List.perm_insertionSort _ _

/-- C2: for every input row set, launch rows (status `OFERTADOS
LANCAMENTOS`, positive unit count, non-null company/neighbourhood,
canonical name ≠ `'N/A'`) sharing one `(ProjectIdentity, company,
neighbourhood)` triple within one calendar year `y` contribute exactly one
LaunchIndex entry, located in the month of the earliest-period occurrence
(the quantifier over `y` also yields the second entry for the same triple
in a later calendar year). -/
theorem C2_launch_dedup_per_year (rows : List Row) (y : Nat) (t : Triple)
    (hex : ∃ e ∈ launchRows rows, keyOf e = (y, t)) :
    countInYear (projectsDetails rows) y t = 1 ∧
    ∃ m ts, (m, ts) ∈ projectsDetails rows ∧ t ∈ ts ∧ (m, t) ∈ launchRows rows ∧
      yearOfPeriod m = y ∧ ∀ e ∈ launchRows rows, keyOf e = (y, t) → m ≤ e.1 := by
  have hperm := sortedLaunch_perm rows
  have hsort := sortedLaunch_sorted rows
  have hexs : ∃ e ∈ sortedLaunch rows, keyOf e = (y, t) := by
    obtain ⟨e, he, hk⟩ := hex
    exact ⟨e, hperm.mem_iff.2 he, hk⟩
  constructor
  · rw [projectsDetails, countInYear_groupByPeriod, uniqueHistorical, dedupGo_countP]
    rw [if_neg (List.not_mem_nil _)]
    have hpos : 0 < (sortedLaunch rows).countP (fun e => decide (keyOf e = (y, t))) := by
      rw [List.countP_pos]
      obtain ⟨e, he, hk⟩ := hexs
      exact ⟨e, he, by simp [hk]⟩
    omega
  · obtain ⟨e, he1, he2, he3⟩ :=
      dedupGo_first (sortedLaunch rows) [] (y, t) hsort (List.not_mem_nil _) hexs
    obtain ⟨ts, hts, hmem⟩ := mem_groupByPeriod _ e he1
    simp only [keyOf] at he2
    injection he2 with hy ht
    refine ⟨e.1, ts, hts, ht ▸ hmem, ?_, hy, ?_⟩
    · have hm2 : e ∈ launchRows rows := hperm.mem_iff.1 (mem_of_mem_dedupGo _ _ _ he1)
      have heq : ((e.1, t) : Nat × Triple) = e := by rw [← ht, Prod.mk.eta]
      exact heq ▸ hm2
    · intro e' he' hk'
      exact he3 e' (hperm.mem_iff.2 he') hk'

/-- Key-dependent variant of `alookup_map_val`. -/
theorem alookup_map_key {κ : Type} [DecidableEq κ] {β γ : Type}
    (l : List (κ × β)) (f : κ → γ) (k : κ) :
    alookup (l.map (fun e => (e.1, f e.1))) k = (alookup l k).map (fun _ => f k) := by
  induction l with
  | nil => simp [alookup]
  | cons h t ih =>
      obtain ⟨k', v⟩ := h
      by_cases hk : k = k' <;> simp [alookup, hk, ih]

set_option maxRecDepth 100000 in
/-- Witness for C2 at the example rows: the triple `("ALFA","E1","X")`
occurs in 2021 (twice) and in 2022 (once); it is counted once in 2021,
in January. -/
theorem C2_witness :
    (∃ e ∈ launchRows exRowsC2, keyOf e = (2021, ("ALFA", "E1", "X"))) ∧
    (countInYear (projectsDetails exRowsC2) 2021 ("ALFA", "E1", "X") = 1 ∧
     ∃ m ts, (m, ts) ∈ projectsDetails exRowsC2 ∧ ("ALFA", "E1", "X") ∈ ts ∧
       (m, ("ALFA", "E1", "X")) ∈ launchRows exRowsC2 ∧ yearOfPeriod m = 2021 ∧
       ∀ e ∈ launchRows exRowsC2, keyOf e = (2021, ("ALFA", "E1", "X")) → m ≤ e.1) :=
  ⟨by decide, C2_launch_dedup_per_year exRowsC2 2021 ("ALFA", "E1", "X") (by decide)⟩

/-- C1 (amended): in `get_public_launch_counts`, `monthly_units` is keyed
by the months of the LaunchIndex (`projects_details`): a month with a
LaunchIndex entry carries the truncated raw `QUANTIDADE` sum of its
OFFER_LAUNCH rows, and a month without one — even one with launch rows,
all de-duplicated away — is absent from the units map. -/
theorem C1_monthly_units_follow_index (rows : List Row) (p : Nat) :
    alookup (monthlyUnits rows) p =
      (alookup (projectsDetails rows) p).map (fun _ => intTrunc (launchQtySum rows p)) := by
  unfold monthlyUnits
  rw [alookup_map_key (projectsDetails rows) (fun k => intTrunc (launchQtySum rows k)) p]

set_option maxRecDepth 400000 in
/-- C1 (counterexample to the claim as stated): in the spec's own example
scenario the per-month unit total is NOT independent of de-duplication:
February 202102 has raw launch-unit sum 5, but `monthly_units` has no
February key at all (the claim asserts it equals 5); January is present
with 10, and the project is counted once, in January. -/
theorem C1_counterexample :
    alookup (monthlyUnits specExampleRows) 202102 = none ∧
    launchQtySum specExampleRows 202102 = 5 ∧
    alookup (monthlyUnits specExampleRows) 202101 = some 10 ∧
    alookup (monthlyProjects specExampleRows) 202101 = some 1 ∧
    alookup (monthlyProjects specExampleRows) 202102 = none := by
  have hd : projectsDetails specExampleRows = [(202101, [("ALFA", "E1", "X")])] := by decide
  have h5 : launchQtySum specExampleRows 202102 = 5 := by
    norm_num [launchQtySum, qtySum, matchingRows, specExampleRows, launchExRow, launchStatus,
      List.filter]
  have h10 : launchQtySum specExampleRows 202101 = 10 := by
    norm_num [launchQtySum, qtySum, matchingRows, specExampleRows, launchExRow, launchStatus,
      List.filter]
  refine ⟨?_, h5, ?_, ?_, ?_⟩
  · unfold monthlyUnits
    rw [hd]
    simp [alookup]
  · unfold monthlyUnits
    rw [hd]
    simp only [List.map_cons, List.map_nil, alookup, if_pos rfl, h10]
    norm_num [intTrunc]
  · unfold monthlyProjects
    rw [hd]
    simp [alookup]
  · unfold monthlyProjects
    rw [hd]
    simp [alookup]

/-- C10: a launch row whose company or neighbourhood is null is dropped by
`dropna` before de-duplication, so it contributes nothing to the
LaunchIndex or to the project counts. -/
theorem C10_null_company_excluded (rows : List Row) (r : Row)
    (h : r.empresa = none ∨ r.bairro = none) :
    projectsDetails (r :: rows) = projectsDetails rows ∧
    monthlyProjects (r :: rows) = monthlyProjects rows := by
  have hl : launchRows (r :: rows) = launchRows rows := by
    unfold launchRows
    rw [List.filterMap_cons]
    rcases h with h | h
    · rw [h]
    · rw [h]
      cases r.empresa <;> rfl
  have hd : projectsDetails (r :: rows) = projectsDetails rows := by
    unfold projectsDetails uniqueHistorical sortedLaunch
    rw [hl]
  exact ⟨hd, by unfold monthlyProjects; rw [hd]⟩

set_option maxRecDepth 100000 in
/-- Witness for C10: prepending a launch row with a null company leaves
the LaunchIndex and the project counts unchanged. -/
theorem C10_witness :
    (exRowNoEmpresa.empresa = none ∨ exRowNoEmpresa.bairro = none) ∧
    projectsDetails (exRowNoEmpresa :: specExampleRows) = projectsDetails specExampleRows ∧
    monthlyProjects (exRowNoEmpresa :: specExampleRows) = monthlyProjects specExampleRows :=
  ⟨Or.inl rfl,
   (C10_null_company_excluded specExampleRows exRowNoEmpresa (Or.inl rfl)).1,
   (C10_null_company_excluded specExampleRows exRowNoEmpresa (Or.inl rfl)).2⟩

theorem calcAgg_monthly (rows : List Row) (ofertaTypes : List String) (isOferta : Bool) :
    (calculatePeriodAggregations rows ofertaTypes isOferta).monthly =
      calculateIndicator rows ofertaTypes := by
  unfold calculatePeriodAggregations
  by_cases h : calculateIndicator rows ofertaTypes = [] <;> simp [h]

theorem calcIVVAgg_monthly (rows : List Row) :
    (calculateIVVPeriodAggregations rows).monthly = calculateIVV rows := by
  unfold calculateIVVPeriodAggregations
  by_cases h : calculateIVV rows = [] <;> simp [h]

theorem alookup_ne_none_of_mem {κ : Type} [DecidableEq κ] {β : Type}
    (m : List (κ × β)) (k : κ) (v : β) (h : (k, v) ∈ m) : alookup m k ≠ none := by
  induction m with
  | nil => cases h
  | cons hd t ih =>
      obtain ⟨k0, v0⟩ := hd
      by_cases hk : k = k0
      · simp [alookup, hk]
      · rcases List.mem_cons.1 h with h' | h'
        · exact absurd (congrArg Prod.fst h') hk
        · simp only [alookup, if_neg hk]
          exact ih h'

theorem calculateIndicator_nil_of_unmatched (ofertaTypes : List String) :
    ∀ rows : List Row, (∀ r ∈ rows, r.ofertaVenda ∉ ofertaTypes) →
      calculateIndicator rows ofertaTypes = [] := by
  intro rows
  induction rows with
  | nil => intro _; rfl
  | cons r rest ih =>
      intro hall
      unfold calculateIndicator at ih ⊢
      rw [List.foldl_cons, if_neg (hall r (List.mem_cons_self _ _))]
      exact ih (fun x hx => hall x (List.mem_cons_of_mem _ hx))

/-- C9: the monthly map of the Period Aggregator has a key exactly for the
periods with at least one matching row; quarterly/yearly keys only arise
from such periods; an empty or fully-filtered-out row set yields empty
maps, and `get_projects_details` of an empty frame yields `{}` — never an
error (all embedded functions are total). -/
theorem C9_absent_periods_absent_keys (rows : List Row) (ofertaTypes : List String)
    (isOferta : Bool) (p : Nat) (y q : Nat) :
    (alookup (calculatePeriodAggregations rows ofertaTypes isOferta).monthly p ≠ none ↔
      ∃ r ∈ rows, r.ofertaVenda ∈ ofertaTypes ∧ r.anoMes = p) ∧
    (alookup (calculatePeriodAggregations rows ofertaTypes isOferta).quarterly (y, q) ≠ none →
      ∃ r ∈ rows, r.ofertaVenda ∈ ofertaTypes ∧ quarterKey r.anoMes = (y, q)) ∧
    (alookup (calculatePeriodAggregations rows ofertaTypes isOferta).yearly y ≠ none →
      ∃ r ∈ rows, r.ofertaVenda ∈ ofertaTypes ∧ yearOfPeriod r.anoMes = y) ∧
    calculatePeriodAggregations [] ofertaTypes isOferta = ⟨[], [], []⟩ ∧
    ((∀ r ∈ rows, r.ofertaVenda ∉ ofertaTypes) →
      calculatePeriodAggregations rows ofertaTypes isOferta = ⟨[], [], []⟩) ∧
    projectsDetails [] = [] := by
  have hmr : ∀ p' : Nat, matchingRows rows ofertaTypes p' ≠ [] ↔
      ∃ r ∈ rows, r.ofertaVenda ∈ ofertaTypes ∧ r.anoMes = p' := by
    intro p'
    unfold matchingRows
    rw [Ne, List.filter_eq_nil_iff]
    push_neg
    constructor
    · rintro ⟨r, hr, hd⟩
      simp only [decide_eq_true_eq] at hd
      exact ⟨r, hr, hd⟩
    · rintro ⟨r, hr, hd⟩
      exact ⟨r, hr, by simpa using hd⟩
  refine ⟨?_, ?_, ?_, ?_, ?_, rfl⟩
  · rw [calcAgg_monthly, calculateIndicator_lookup]
    by_cases h : matchingRows rows ofertaTypes p = []
    · rw [if_pos h]
      constructor
      · intro hc
        exact absurd rfl hc
      · intro hex
        exact absurd h ((hmr p).2 hex)
    · rw [if_neg h]
      simp only [(hmr p).1 h, iff_true]
      intro hc
      cases hc
  · intro hne
    rw [calculatePeriodAggregations_quarterly] at hne
    by_cases hb : bucketOf quarterKey (calculateIndicator rows ofertaTypes) (y, q) = []
    · rw [if_pos hb] at hne
      exact absurd rfl hne
    · obtain ⟨x, hx⟩ := List.exists_mem_of_ne_nil _ hb
      obtain ⟨e, he, rfl⟩ := List.mem_map.1 hx
      have hkey : quarterKey e.1 = (y, q) := by
        have := List.mem_filter.1 he
        simpa using this.2
      have hmem : e ∈ calculateIndicator rows ofertaTypes := (List.mem_filter.1 he).1
      have hlk : alookup (calculateIndicator rows ofertaTypes) e.1 ≠ none :=
        alookup_ne_none_of_mem _ e.1 e.2 (by simpa using hmem)
      rw [calculateIndicator_lookup] at hlk
      by_cases hm : matchingRows rows ofertaTypes e.1 = []
      · rw [if_pos hm] at hlk
        exact absurd rfl hlk
      · obtain ⟨r, hr, hst, hp⟩ := (hmr e.1).1 hm
        exact ⟨r, hr, hst, by rw [hp, hkey]⟩
  · intro hne
    rw [calculatePeriodAggregations_yearly] at hne
    by_cases hb : bucketOf yearOfPeriod (calculateIndicator rows ofertaTypes) y = []
    · rw [if_pos hb] at hne
      exact absurd rfl hne
    · obtain ⟨x, hx⟩ := List.exists_mem_of_ne_nil _ hb
      obtain ⟨e, he, rfl⟩ := List.mem_map.1 hx
      have hkey : yearOfPeriod e.1 = y := by
        have := List.mem_filter.1 he
        simpa using this.2
      have hmem : e ∈ calculateIndicator rows ofertaTypes := (List.mem_filter.1 he).1
      have hlk : alookup (calculateIndicator rows ofertaTypes) e.1 ≠ none :=
        alookup_ne_none_of_mem _ e.1 e.2 (by simpa using hmem)
      rw [calculateIndicator_lookup] at hlk
      by_cases hm : matchingRows rows ofertaTypes e.1 = []
      · rw [if_pos hm] at hlk
        exact absurd rfl hlk
      · obtain ⟨r, hr, hst, hp⟩ := (hmr e.1).1 hm
        exact ⟨r, hr, hst, by rw [hp, hkey]⟩
  · rfl
  · intro hall
    have hnil : calculateIndicator rows ofertaTypes = [] :=
      calculateIndicator_nil_of_unmatched ofertaTypes rows hall
    unfold calculatePeriodAggregations
    rw [hnil]
    simp

set_option maxRecDepth 400000 in
/-- Witness for C9 at the example rows: period 202101 has a matching
launch row; the empty frame yields empty maps. -/
theorem C9_witness :
    (∃ r ∈ specExampleRows, r.ofertaVenda ∈ [launchStatus] ∧ r.anoMes = 202101) ∧
    calculatePeriodAggregations [] [launchStatus] false = ⟨[], [], []⟩ ∧
    projectsDetails [] = [] :=
  ⟨(C9_absent_periods_absent_keys specExampleRows [launchStatus] false 202101 2021 1).1.1
      (by decide),
   (C9_absent_periods_absent_keys specExampleRows [launchStatus] false 202101 2021 1).2.2.2.1,
   (C9_absent_periods_absent_keys specExampleRows [launchStatus] false 202101 2021 1).2.2.2.2.2⟩

/-- C4: for every row set and status filter, a Sum-style metric
(`isOferta = false`) rolls a non-empty quarter/year bucket up to the exact
sum of its monthly values (so the monthly values of a full year sum to
that year's value), while an offer-style metric (`isOferta = true`) rolls
it up to `Math.round` of the arithmetic mean of those monthly values. -/
theorem C4_sum_vs_offer_style (rows : List Row) (ofertaTypes : List String) (y q : Nat) :
    (quarterBucket rows ofertaTypes y q ≠ [] →
      alookup (calculatePeriodAggregations rows ofertaTypes false).quarterly (y, q) =
        some (quarterBucket rows ofertaTypes y q).sum ∧
      alookup (calculatePeriodAggregations rows ofertaTypes true).quarterly (y, q) =
        some ((jsRound ((quarterBucket rows ofertaTypes y q).sum /
          (quarterBucket rows ofertaTypes y q).length) : ℚ))) ∧
    (yearBucket rows ofertaTypes y ≠ [] →
      alookup (calculatePeriodAggregations rows ofertaTypes false).yearly y =
        some (yearBucket rows ofertaTypes y).sum ∧
      alookup (calculatePeriodAggregations rows ofertaTypes true).yearly y =
        some ((jsRound ((yearBucket rows ofertaTypes y).sum /
          (yearBucket rows ofertaTypes y).length) : ℚ))) := by
  constructor
  · intro hb
    unfold quarterBucket at hb
    constructor
    · rw [calculatePeriodAggregations_quarterly, if_neg hb]
      simp [aggValue, quarterBucket]
    · rw [calculatePeriodAggregations_quarterly, if_neg hb]
      simp [aggValue, quarterBucket]
  · intro hb
    unfold yearBucket at hb
    constructor
    · rw [calculatePeriodAggregations_yearly, if_neg hb]
      simp [aggValue, yearBucket]
    · rw [calculatePeriodAggregations_yearly, if_neg hb]
      simp [aggValue, yearBucket]

set_option maxRecDepth 400000 in
/-- Witness for C4 at the example rows (both months fall in 2021 Q1). -/
theorem C4_witness :
    quarterBucket specExampleRows ofertadosTypes 2021 1 ≠ [] ∧
    yearBucket specExampleRows ofertadosTypes 2021 ≠ [] ∧
    alookup (calculatePeriodAggregations specExampleRows ofertadosTypes false).quarterly
        (2021, 1) = some (quarterBucket specExampleRows ofertadosTypes 2021 1).sum ∧
    alookup (calculatePeriodAggregations specExampleRows ofertadosTypes false).yearly 2021 =
      some (yearBucket specExampleRows ofertadosTypes 2021).sum :=
  ⟨by decide, by decide,
   ((C4_sum_vs_offer_style specExampleRows ofertadosTypes 2021 1).1 (by decide)).1,
   ((C4_sum_vs_offer_style specExampleRows ofertadosTypes 2021 1).2 (by decide)).1⟩

theorem ofertasSum_nonneg (rows : List Row) (p : Nat)
    (hq : ∀ r ∈ rows, 0 ≤ r.quantidade.getD 0) : 0 ≤ ofertasSum rows p := by
  apply List.sum_nonneg
  intro x hx
  obtain ⟨r, hr, rfl⟩ := List.mem_map.1 hx
  exact hq r (List.mem_of_mem_filter hr)

/-- C3: the monthly IVV of a period with data equals
`(Σsold / Σoffered) × 100`, and `0` when the offered sum is zero (the
embedding is a total function into `ℚ`, so no exception, `NaN` or
`Infinity` can arise); the quarterly/yearly IVV of a non-empty bucket is
the arithmetic mean of the contained monthly IVV values, not a ratio
recomputed from summed sales and offers. -/
theorem C3_ivv_policy (rows : List Row) (p y q : Nat)
    (hq : ∀ r ∈ rows, 0 ≤ r.quantidade.getD 0) :
    (periodRows rows p ≠ [] →
      alookup (calculateIVVPeriodAggregations rows).monthly p =
        some (if ofertasSum rows p = 0 then 0
              else vendasSum rows p / ofertasSum rows p * 100)) ∧
    (bucketOf quarterKey (calculateIVV rows) (y, q) ≠ [] →
      alookup (calculateIVVPeriodAggregations rows).quarterly (y, q) =
        some ((bucketOf quarterKey (calculateIVV rows) (y, q)).sum /
              (bucketOf quarterKey (calculateIVV rows) (y, q)).length)) ∧
    (bucketOf yearOfPeriod (calculateIVV rows) y ≠ [] →
      alookup (calculateIVVPeriodAggregations rows).yearly y =
        some ((bucketOf yearOfPeriod (calculateIVV rows) y).sum /
              (bucketOf yearOfPeriod (calculateIVV rows) y).length)) := by
  refine ⟨?_, ?_, ?_⟩
  · intro hb
    rw [calcIVVAgg_monthly, calculateIVV_lookup, if_neg hb]
    by_cases ho : ofertasSum rows p = 0
    · rw [if_pos ho, if_neg (by rw [ho]; exact lt_irrefl 0)]
    · rw [if_neg ho,
        if_pos (lt_of_le_of_ne (ofertasSum_nonneg rows p hq) (fun h => ho h.symm))]
  · intro hb
    rw [calculateIVVPeriodAggregations_quarterly, if_neg hb]
    simp [ivvMean]
  · intro hb
    rw [calculateIVVPeriodAggregations_yearly, if_neg hb]
    simp [ivvMean]

set_option maxRecDepth 400000 in
/-- Witness for C3: January 202101 (5 sold / 10 offered) and February
202102 (3 sold, zero offers), plus the 2021 Q1 mean bucket. -/
theorem C3_witness :
    (∀ r ∈ exRowsC3, 0 ≤ r.quantidade.getD 0) ∧
    alookup (calculateIVVPeriodAggregations exRowsC3).monthly 202102 =
      some (if ofertasSum exRowsC3 202102 = 0 then 0
            else vendasSum exRowsC3 202102 / ofertasSum exRowsC3 202102 * 100) ∧
    alookup (calculateIVVPeriodAggregations exRowsC3).quarterly (2021, 1) =
      some ((bucketOf quarterKey (calculateIVV exRowsC3) (2021, 1)).sum /
            (bucketOf quarterKey (calculateIVV exRowsC3) (2021, 1)).length) :=
  ⟨by decide,
   (C3_ivv_policy exRowsC3 202102 2021 1 (by decide)).1 (by decide),
   (C3_ivv_policy exRowsC3 202102 2021 1 (by decide)).2.1 (by decide)⟩

set_option maxRecDepth 400000 in
/-- C5: the area-weighted average's monthly value is
`Σ(value×qty) / Σ(qty)` over the month's contributing rows; its
quarterly/yearly value is the same ratio re-computed from the summed raw
month totals of the bucket; and on the concrete two-month input it
differs from the arithmetic mean of the monthly ratios. -/
theorem C5_weighted_average_reweights (rows : List Row) (ofertaTypes : List String)
    (p y q : Nat) :
    (valorRows rows ofertaTypes p ≠ [] →
      alookup (calculateValorPonderadoPeriodAggregations rows ofertaTypes).monthly p =
        some (valorSum rows ofertaTypes p / areaSum rows ofertaTypes p)) ∧
    (bucket2 quarterKey (valorMonthlyData rows ofertaTypes) (y, q) ≠ [] →
      alookup (calculateValorPonderadoPeriodAggregations rows ofertaTypes).quarterly (y, q) =
        some (((bucket2 quarterKey (valorMonthlyData rows ofertaTypes) (y, q)).map
            (fun e => e.2.1)).sum /
          ((bucket2 quarterKey (valorMonthlyData rows ofertaTypes) (y, q)).map
            (fun e => e.2.2)).sum)) ∧
    (bucket2 yearOfPeriod (valorMonthlyData rows ofertaTypes) y ≠ [] →
      alookup (calculateValorPonderadoPeriodAggregations rows ofertaTypes).yearly y =
        some (((bucket2 yearOfPeriod (valorMonthlyData rows ofertaTypes) y).map
            (fun e => e.2.1)).sum /
          ((bucket2 yearOfPeriod (valorMonthlyData rows ofertaTypes) y).map
            (fun e => e.2.2)).sum)) ∧
    (alookup (calculateValorPonderadoPeriodAggregations exRowsC5 ofertadosTypes).quarterly
        (2021, 1) = some (20 / 11) ∧
      (20 : ℚ) / 11 ≠ (10 / 1 + 10 / 10) / 2) := by
  refine ⟨?_, ?_, ?_, ?_, ?_⟩
  · intro hb
    rw [valorPonderado_monthly_lookup, if_neg hb]
  · intro hb
    rw [valorPonderado_quarterly_lookup, if_neg hb]
  · intro hb
    rw [valorPonderado_yearly_lookup, if_neg hb]
  · have hbq : bucket2 quarterKey (valorMonthlyData exRowsC5 ofertadosTypes)
        ((2021 : Nat), (1 : Nat)) =
        [(202101, ((10 : ℚ), (1 : ℚ))), (202102, ((10 : ℚ), (10 : ℚ)))] := by decide
    rw [valorPonderado_quarterly_lookup, hbq]
    rw [if_neg (List.cons_ne_nil _ _)]
    norm_num
  · norm_num

theorem categorize_value_of_mem (v : ℚ) (f : Faixa) (hf : f ∈ faixasValor) (hin : inValue v f) :
    categorize_value (some v) = f.label := by
  have hin2 := hin
  fin_cases hf
  · simp only [inValue, ltHi] at hin2
    simp only [categorize_value, faixasValor, findValueLabel]
    rw [if_pos hin]
  · simp only [inValue, ltHi] at hin2
    simp only [categorize_value, faixasValor, findValueLabel]
    rw [if_neg (by simp only [inValue, ltHi]; rintro ⟨hc1, hc2⟩; linarith [hin2.1])]
    rw [if_pos hin]
  · simp only [inValue, ltHi] at hin2
    simp only [categorize_value, faixasValor, findValueLabel]
    rw [if_neg (by simp only [inValue, ltHi]; rintro ⟨hc1, hc2⟩; linarith [hin2.1])]
    rw [if_neg (by simp only [inValue, ltHi]; rintro ⟨hc1, hc2⟩; linarith [hin2.1])]
    rw [if_pos hin]
  · simp only [inValue, ltHi] at hin2
    simp only [categorize_value, faixasValor, findValueLabel]
    rw [if_neg (by simp only [inValue, ltHi]; rintro ⟨hc1, hc2⟩; linarith [hin2.1])]
    rw [if_neg (by simp only [inValue, ltHi]; rintro ⟨hc1, hc2⟩; linarith [hin2.1])]
    rw [if_neg (by simp only [inValue, ltHi]; rintro ⟨hc1, hc2⟩; linarith [hin2.1])]
    rw [if_pos hin]
  · simp only [inValue, ltHi] at hin2
    simp only [categorize_value, faixasValor, findValueLabel]
    rw [if_neg (by simp only [inValue, ltHi]; rintro ⟨hc1, hc2⟩; linarith [hin2.1])]
    rw [if_neg (by simp only [inValue, ltHi]; rintro ⟨hc1, hc2⟩; linarith [hin2.1])]
    rw [if_neg (by simp only [inValue, ltHi]; rintro ⟨hc1, hc2⟩; linarith [hin2.1])]
    rw [if_neg (by simp only [inValue, ltHi]; rintro ⟨hc1, hc2⟩; linarith [hin2.1])]
    rw [if_pos hin]
  · simp only [inValue, ltHi] at hin2
    simp only [categorize_value, faixasValor, findValueLabel]
    rw [if_neg (by simp only [inValue, ltHi]; rintro ⟨hc1, hc2⟩; linarith [hin2.1])]
    rw [if_neg (by simp only [inValue, ltHi]; rintro ⟨hc1, hc2⟩; linarith [hin2.1])]
    rw [if_neg (by simp only [inValue, ltHi]; rintro ⟨hc1, hc2⟩; linarith [hin2.1])]
    rw [if_neg (by simp only [inValue, ltHi]; rintro ⟨hc1, hc2⟩; linarith [hin2.1])]
    rw [if_neg (by simp only [inValue, ltHi]; rintro ⟨hc1, hc2⟩; linarith [hin2.1])]
    rw [if_pos hin]

theorem categorize_area_of_mem (v : ℚ) (f : Faixa) (hf : f ∈ faixasArea) (hin : inArea v f) :
    categorize_area (some v) = f.label := by
  have hin2 := hin
  fin_cases hf
  · simp only [inArea, leHi] at hin2
    simp only [categorize_area, faixasArea, findAreaLabel]
    rw [if_pos hin]
  · simp only [inArea, leHi] at hin2
    simp only [categorize_area, faixasArea, findAreaLabel]
    rw [if_neg (by simp only [inArea, leHi]; rintro ⟨hc1, hc2⟩; linarith [hin2.1])]
    rw [if_pos hin]
  · simp only [inArea, leHi] at hin2
    simp only [categorize_area, faixasArea, findAreaLabel]
    rw [if_neg (by simp only [inArea, leHi]; rintro ⟨hc1, hc2⟩; linarith [hin2.1])]
    rw [if_neg (by simp only [inArea, leHi]; rintro ⟨hc1, hc2⟩; linarith [hin2.1])]
    rw [if_pos hin]
  · simp only [inArea, leHi] at hin2
    simp only [categorize_area, faixasArea, findAreaLabel]
    rw [if_neg (by simp only [inArea, leHi]; rintro ⟨hc1, hc2⟩; linarith [hin2.1])]
    rw [if_neg (by simp only [inArea, leHi]; rintro ⟨hc1, hc2⟩; linarith [hin2.1])]
    rw [if_neg (by simp only [inArea, leHi]; rintro ⟨hc1, hc2⟩; linarith [hin2.1])]
    rw [if_pos hin]
  · simp only [inArea, leHi] at hin2
    simp only [categorize_area, faixasArea, findAreaLabel]
    rw [if_neg (by simp only [inArea, leHi]; rintro ⟨hc1, hc2⟩; linarith [hin2.1])]
    rw [if_neg (by simp only [inArea, leHi]; rintro ⟨hc1, hc2⟩; linarith [hin2.1])]
    rw [if_neg (by simp only [inArea, leHi]; rintro ⟨hc1, hc2⟩; linarith [hin2.1])]
    rw [if_neg (by simp only [inArea, leHi]; rintro ⟨hc1, hc2⟩; linarith [hin2.1])]
    rw [if_pos hin]
  · simp only [inArea, leHi] at hin2
    simp only [categorize_area, faixasArea, findAreaLabel]
    rw [if_neg (by simp only [inArea, leHi]; rintro ⟨hc1, hc2⟩; linarith [hin2.1])]
    rw [if_neg (by simp only [inArea, leHi]; rintro ⟨hc1, hc2⟩; linarith [hin2.1])]
    rw [if_neg (by simp only [inArea, leHi]; rintro ⟨hc1, hc2⟩; linarith [hin2.1])]
    rw [if_neg (by simp only [inArea, leHi]; rintro ⟨hc1, hc2⟩; linarith [hin2.1])]
    rw [if_neg (by simp only [inArea, leHi]; rintro ⟨hc1, hc2⟩; linarith [hin2.1])]
    rw [if_pos hin]
  · simp only [inArea, leHi] at hin2
    simp only [categorize_area, faixasArea, findAreaLabel]
    rw [if_neg (by simp only [inArea, leHi]; rintro ⟨hc1, hc2⟩; linarith [hin2.1])]
    rw [if_neg (by simp only [inArea, leHi]; rintro ⟨hc1, hc2⟩; linarith [hin2.1])]
    rw [if_neg (by simp only [inArea, leHi]; rintro ⟨hc1, hc2⟩; linarith [hin2.1])]
    rw [if_neg (by simp only [inArea, leHi]; rintro ⟨hc1, hc2⟩; linarith [hin2.1])]
    rw [if_neg (by simp only [inArea, leHi]; rintro ⟨hc1, hc2⟩; linarith [hin2.1])]
    rw [if_neg (by simp only [inArea, leHi]; rintro ⟨hc1, hc2⟩; linarith [hin2.1])]
    rw [if_pos hin]
  · simp only [inArea, leHi] at hin2
    simp only [categorize_area, faixasArea, findAreaLabel]
    rw [if_neg (by simp only [inArea, leHi]; rintro ⟨hc1, hc2⟩; linarith [hin2.1])]
    rw [if_neg (by simp only [inArea, leHi]; rintro ⟨hc1, hc2⟩; linarith [hin2.1])]
    rw [if_neg (by simp only [inArea, leHi]; rintro ⟨hc1, hc2⟩; linarith [hin2.1])]
    rw [if_neg (by simp only [inArea, leHi]; rintro ⟨hc1, hc2⟩; linarith [hin2.1])]
    rw [if_neg (by simp only [inArea, leHi]; rintro ⟨hc1, hc2⟩; linarith [hin2.1])]
    rw [if_neg (by simp only [inArea, leHi]; rintro ⟨hc1, hc2⟩; linarith [hin2.1])]
    rw [if_neg (by simp only [inArea, leHi]; rintro ⟨hc1, hc2⟩; linarith [hin2.1])]
    rw [if_pos hin]
  · simp only [inArea, leHi] at hin2
    simp only [categorize_area, faixasArea, findAreaLabel]
    rw [if_neg (by simp only [inArea, leHi]; rintro ⟨hc1, hc2⟩; linarith [hin2.1])]
    rw [if_neg (by simp only [inArea, leHi]; rintro ⟨hc1, hc2⟩; linarith [hin2.1])]
    rw [if_neg (by simp only [inArea, leHi]; rintro ⟨hc1, hc2⟩; linarith [hin2.1])]
    rw [if_neg (by simp only [inArea, leHi]; rintro ⟨hc1, hc2⟩; linarith [hin2.1])]
    rw [if_neg (by simp only [inArea, leHi]; rintro ⟨hc1, hc2⟩; linarith [hin2.1])]
    rw [if_neg (by simp only [inArea, leHi]; rintro ⟨hc1, hc2⟩; linarith [hin2.1])]
    rw [if_neg (by simp only [inArea, leHi]; rintro ⟨hc1, hc2⟩; linarith [hin2.1])]
    rw [if_neg (by simp only [inArea, leHi]; rintro ⟨hc1, hc2⟩; linarith [hin2.1])]
    rw [if_pos hin]

theorem categorize_area_of_none (a : ℚ) (h : ∀ f ∈ faixasArea, ¬ inArea a f) :
    categorize_area (some a) = "N/A" := by
  simp only [categorize_area, faixasArea, findAreaLabel]
  rw [if_neg (h ⟨0, some 40, "Até 40m²"⟩ (by simp [faixasArea]))]
  rw [if_neg (h ⟨41, some 60, "41 a 60m²"⟩ (by simp [faixasArea]))]
  rw [if_neg (h ⟨61, some 80, "61 a 80m²"⟩ (by simp [faixasArea]))]
  rw [if_neg (h ⟨81, some 100, "81 a 100m²"⟩ (by simp [faixasArea]))]
  rw [if_neg (h ⟨101, some 120, "101 a 120m²"⟩ (by simp [faixasArea]))]
  rw [if_neg (h ⟨121, some 150, "121 a 150m²"⟩ (by simp [faixasArea]))]
  rw [if_neg (h ⟨151, some 175, "151 a 175m²"⟩ (by simp [faixasArea]))]
  rw [if_neg (h ⟨176, some 200, "176 a 200m²"⟩ (by simp [faixasArea]))]
  rw [if_neg (h ⟨201, none, "Mais de 200m²"⟩ (by simp [faixasArea]))]

theorem categorize_value_of_neg (v : ℚ) (hv : v < 0) :
    categorize_value (some v) = "N/A" := by
  simp only [categorize_value, faixasValor, findValueLabel]
  rw [if_neg (by simp only [inValue, ltHi]; rintro ⟨hc1, hc2⟩; linarith)]
  rw [if_neg (by simp only [inValue, ltHi]; rintro ⟨hc1, hc2⟩; linarith)]
  rw [if_neg (by simp only [inValue, ltHi]; rintro ⟨hc1, hc2⟩; linarith)]
  rw [if_neg (by simp only [inValue, ltHi]; rintro ⟨hc1, hc2⟩; linarith)]
  rw [if_neg (by simp only [inValue, ltHi]; rintro ⟨hc1, hc2⟩; linarith)]
  rw [if_neg (by simp only [inValue, ltHi]; rintro ⟨hc1, hc2⟩; linarith)]

theorem faixasValor_exhaustive (v : ℚ) (hv : 0 ≤ v) :
    ∃ f ∈ faixasValor, inValue v f := by
  rcases lt_or_le v 350000 with h0 | h0
  · exact ⟨⟨0, some 350000, "< 350.000"⟩, by simp [faixasValor], hv, h0⟩
  rcases lt_or_le v 500000 with h1 | h1
  · exact ⟨⟨350000, some 500000, "350.000 – 499.999"⟩, by simp [faixasValor], h0, h1⟩
  rcases lt_or_le v 700000 with h2 | h2
  · exact ⟨⟨500000, some 700000, "500.000 – 699.999"⟩, by simp [faixasValor], h1, h2⟩
  rcases lt_or_le v 1000000 with h3 | h3
  · exact ⟨⟨700000, some 1000000, "700.000 – 999.999"⟩, by simp [faixasValor], h2, h3⟩
  rcases lt_or_le v 2000000 with h4 | h4
  · exact ⟨⟨1000000, some 2000000, "1.000.000 – 1.999.999"⟩, by simp [faixasValor], h3, h4⟩
  exact ⟨⟨2000000, none, "≥ 2.000.000"⟩, by simp [faixasValor], h4, trivial⟩

theorem faixasValor_label_inj :
    ∀ f ∈ faixasValor, ∀ f' ∈ faixasValor, f.label = f'.label → f' = f := by decide

theorem faixasArea_label_inj :
    ∀ f ∈ faixasArea, ∀ f' ∈ faixasArea, f.label = f'.label → f' = f := by decide

theorem C6_gap_counterexample :
    categorize_area (some (81 / 2)) = "N/A" ∧ (0 : ℚ) ≤ 81 / 2 := by
  constructor
  · apply categorize_area_of_none
    intro f hf
    fin_cases hf <;> simp only [inArea, leHi] <;> rintro ⟨hc1, hc2⟩ <;> norm_num at hc1 hc2
  · norm_num

/-- C6 (amended): `categorize_value`/`categorize_area` return `N/A` on a
missing value; the value table is an exhaustive, non-overlapping
partition of the non-negative rationals, each value receiving its unique
bracket's label, and negative values map to `N/A`; the area table is
non-overlapping and assigns each contained area its unique bracket's
label, but it is exhaustive only outside the unit gaps between
consecutive integer-bounded brackets — an area matching no bracket
(a gap value such as 40.5, or a negative) also maps to `N/A`, so
missing values are not the only source of `N/A` on the area side. -/
theorem C6_bracket_partition (v a : ℚ) :
    categorize_value none = "N/A" ∧ categorize_area none = "N/A" ∧
    (0 ≤ v → ∃ f ∈ faixasValor, inValue v f ∧ categorize_value (some v) = f.label ∧
      ∀ f' ∈ faixasValor, inValue v f' → f' = f) ∧
    (v < 0 → categorize_value (some v) = "N/A") ∧
    (∀ f ∈ faixasArea, inArea a f → categorize_area (some a) = f.label ∧
      ∀ f' ∈ faixasArea, inArea a f' → f' = f) ∧
    ((∀ f ∈ faixasArea, ¬ inArea a f) → categorize_area (some a) = "N/A") := by
  refine ⟨rfl, rfl, ?_, categorize_value_of_neg v, ?_, categorize_area_of_none a⟩
  · intro hv
    obtain ⟨f, hf, hin⟩ := faixasValor_exhaustive v hv
    refine ⟨f, hf, hin, categorize_value_of_mem v f hf hin, ?_⟩
    intro f' hf' hin'
    have h1 := categorize_value_of_mem v f hf hin
    have h2 := categorize_value_of_mem v f' hf' hin'
    exact faixasValor_label_inj f hf f' hf' (h1.symm.trans h2)
  · intro f hf hin
    refine ⟨categorize_area_of_mem a f hf hin, ?_⟩
    intro f' hf' hin'
    have h1 := categorize_area_of_mem a f hf hin
    have h2 := categorize_area_of_mem a f' hf' hin'
    exact faixasArea_label_inj f hf f' hf' (h1.symm.trans h2)

/-- Witness for C6 at value 450,000 and area 75 m². -/
theorem C6_witness :
    (0 : ℚ) ≤ 450000 ∧
    (∃ f ∈ faixasValor, inValue 450000 f ∧ categorize_value (some 450000) = f.label ∧
      ∀ f' ∈ faixasValor, inValue 450000 f' → f' = f) ∧
    inArea 75 ⟨61, some 80, "61 a 80m²"⟩ ∧
    categorize_area (some 75) = (⟨61, some 80, "61 a 80m²"⟩ : Faixa).label := by
  have hin : inArea 75 (⟨61, some 80, "61 a 80m²"⟩ : Faixa) := by
    constructor
    · norm_num
    · simp only [leHi]
      norm_num
  refine ⟨by norm_num, (C6_bracket_partition 450000 75).2.2.1 (by norm_num), hin,
    ((C6_bracket_partition 450000 75).2.2.2.2.1 _ (by simp [faixasArea]) hin).1⟩

theorem scanReplaceCI_of_noMatch (pat repl : List Char) (l : List Char)
    (h : noMatchCI pat l = true) : ∀ n, scanReplaceCI pat repl n l = l := by
  induction l with
  | nil => intro n; cases n <;> rfl
  | cons c cs ih =>
      intro n
      cases n with
      | zero => rfl
      | succ n =>
          simp only [noMatchCI, Bool.and_eq_true, Bool.not_eq_true'] at h
          rw [scanReplaceCI, if_neg (by simp [h.1]), ih h.2 n]

theorem scanRemove_of_noMatch (p : List Tok) (l : List Char)
    (h : noMatchTok p l = true) : ∀ n, scanRemove p n l = l := by
  induction l with
  | nil => intro n; cases n <;> rfl
  | cons c cs ih =>
      intro n
      cases n with
      | zero => rfl
      | succ n =>
          simp only [noMatchTok, Bool.and_eq_true, Option.isNone_iff_eq_none] at h
          simp only [scanRemove, h.1]
          rw [ih h.2 n]

theorem replaceCI_id (pat repl l : List Char) (h : noMatchCI pat l = true) :
    replaceCI pat repl l = l := by
  unfold replaceCI
  exact scanReplaceCI_of_noMatch pat repl l h l.length

theorem removeAll_id (p : List Tok) (l : List Char) (h : noMatchTok p l = true) :
    removeAll p l = l := by
  unfold removeAll
  exact scanRemove_of_noMatch p l h l.length

theorem stripPre_id (tok l : List Char)
    (h : ¬(leadSegCI tok l = true ∧ (l.drop tok.length).takeWhile isWS ≠ [])) :
    stripPre tok l = l := by
  unfold stripPre
  by_cases h1 : leadSegCI tok l = true
  · rw [if_pos h1]
    by_cases h2 : (l.drop tok.length).takeWhile isWS = []
    · rw [if_pos h2]
    · exact absurd ⟨h1, h2⟩ h
  · rw [if_neg h1]

theorem patterns_fold_id (s : List Char) (hstrip : stripWS s = s) :
    ∀ ps : List (List Tok), (∀ p ∈ ps, noMatchTok p s = true) →
      ps.foldl (fun t p => stripWS (removeAll p t)) s = s := by
  intro ps
  induction ps with
  | nil => intro _; rfl
  | cons p ps ih =>
      intro hall
      rw [List.foldl_cons, removeAll_id p s (hall p (List.mem_cons_self _ _)), hstrip]
      exact ih (fun p' hp' => hall p' (List.mem_cons_of_mem _ hp'))

/-- A string in fully-normalised form is a fixed point of the
canonical-name transform. -/
theorem normalize_fixpoint (s : String)
    (hmiss : ∀ pr ∈ misspellFixes, noMatchCI pr.1 s.data = true)
    (hpre : ∀ tok ∈ genericPrefixes,
      ¬(leadSegCI tok s.data = true ∧ (s.data.drop tok.length).takeWhile isWS ≠ []))
    (hup : upperL s.data = s.data)
    (hstrip : stripWS s.data = s.data)
    (hpat : ∀ p ∈ patternsToRemove, noMatchTok p s.data = true)
    (hna : s.data ≠ "N/A".data)
    (hseq : isSeqCodeCS s.data = false) :
    normalizeStr s = s := by
  have hchars : normalizeChars s.data = s.data := by
    unfold normalizeChars
    simp only [misspellFixes, List.foldl_cons, List.foldl_nil]
    rw [replaceCI_id _ _ _
      (hmiss ("EMPPREENDIMENTO".data, "EMPREENDIMENTO".data) (by simp [misspellFixes]))]
    rw [replaceCI_id _ _ _
      (hmiss ("EMPREEENDIMENTO".data, "EMPREENDIMENTO".data) (by simp [misspellFixes]))]
    rw [replaceCI_id _ _ _
      (hmiss ("EMPRENDIMENTO".data, "EMPREENDIMENTO".data) (by simp [misspellFixes]))]
    rw [stripPre_id _ _ (hpre _ (by simp [genericPrefixes]))]
    rw [stripPre_id _ _ (hpre _ (by simp [genericPrefixes]))]
    rw [stripPre_id _ _ (hpre _ (by simp [genericPrefixes]))]
    rw [hstrip, hup, hstrip]
    rw [patterns_fold_id s.data hstrip patternsToRemove hpat]
    rw [if_pos ⟨hna, by simp [hseq]⟩]
  unfold normalizeStr normalizeName
  simp only [Option.getD_some]
  rw [hchars]

/-- C7 (amended): the canonical-name transform is not idempotent in
general (a second pass can strip a re-exposed prefix); it fixes its own output exactly when that
output is fully normalised: if `normalize(x)` contains no misspelling
occurrence, exposes no strippable generic prefix, is already uppercase
and whitespace-stripped, matches none of the 19 suffix patterns, and is
neither `'N/A'` nor a sequential code, then
`normalize(normalize(x)) = normalize(x)`. -/
theorem C7_idempotent_on_normalized_outputs (x : Option String)
    (hmiss : ∀ pr ∈ misspellFixes, noMatchCI pr.1 (normalizeName x).data = true)
    (hpre : ∀ tok ∈ genericPrefixes,
      ¬(leadSegCI tok (normalizeName x).data = true ∧
        ((normalizeName x).data.drop tok.length).takeWhile isWS ≠ []))
    (hup : upperL (normalizeName x).data = (normalizeName x).data)
    (hstrip : stripWS (normalizeName x).data = (normalizeName x).data)
    (hpat : ∀ p ∈ patternsToRemove, noMatchTok p (normalizeName x).data = true)
    (hna : (normalizeName x).data ≠ "N/A".data)
    (hseq : isSeqCodeCS (normalizeName x).data = false) :
    normalizeStr (normalizeName x) = normalizeName x :=
  normalize_fixpoint (normalizeName x) hmiss hpre hup hstrip hpat hna hseq

set_option maxRecDepth 100000 in
/-- C7 (counterexample to idempotence as claimed): one pass over
`"RES RES ALFA"` strips a single `RES` prefix and leaves `"RES ALFA"`;
a second pass strips the re-exposed prefix, so
`normalize(normalize(x)) ≠ normalize(x)`. -/
theorem C7_counterexample :
    normalizeStr "RES RES ALFA" = "RES ALFA" ∧
    normalizeStr (normalizeStr "RES RES ALFA") = "ALFA" ∧
    normalizeStr (normalizeStr "RES RES ALFA") ≠ normalizeStr "RES RES ALFA" :=
  ⟨by decide, by decide, by decide⟩

set_option maxRecDepth 100000 in
/-- Witness for C7 at `"Residencial Alfa Bloco A"`, whose normal form
`"ALFA"` is fully normalised. -/
theorem C7_witness :
    normalizeName (some "Residencial Alfa Bloco A") = "ALFA" ∧
    normalizeStr (normalizeName (some "Residencial Alfa Bloco A")) =
      normalizeName (some "Residencial Alfa Bloco A") :=
  ⟨by decide,
   C7_idempotent_on_normalized_outputs (some "Residencial Alfa Bloco A")
     (by decide) (by decide) (by decide) (by decide) (by decide) (by decide) (by decide)⟩

/-- C8: a non-empty neighbourhood's `gastos_pos_entrega` cell is the sum
of `VGV × tier-percentage` over its sold rows (25 % `Alto`, 15 % `Médio`
and unmatched default, 10 % `Popular`); the 8 per-category Table-8
weights sum exactly to the tier percentage for each tier; the category
entries of a neighbourhood reconcile exactly (in `ℚ`) to its total
spend; and the concrete sold row of 1,000,000 in Popular-tier CEILÂNDIA
contributes exactly 100,000. -/
theorem C8_post_delivery_spend (rows : List Row) (b q : String) (hb : b ≠ "") :
    (alookup (gastosPosEntrega rows) (b, q) =
      if soldCellRows rows b q = [] then none else some (cellSpendSum rows b q)) ∧
    ((categorias.map (catWeight "Alto")).sum = 1 / 4 ∧
     (categorias.map (catWeight "Médio")).sum = 3 / 20 ∧
     (categorias.map (catWeight "Popular")).sum = 1 / 10) ∧
    (spendByCategory rows b).sum = regiaoGastosTotal rows b ∧
    (getPadraoRegiao "CEILÂNDIA" = "Popular" ∧ rowSpend exRowC8 = 100000) := by
  refine ⟨gastosPosEntrega_lookup rows b q hb, ⟨?_, ?_, ?_⟩,
    spendByCategory_sum rows b, ?_, ?_⟩
  · rw [categorias_sum]
    simp [cbicPct]
  · rw [categorias_sum]
    simp [cbicPct]
  · rw [categorias_sum]
    simp [cbicPct]
  · decide
  · unfold rowSpend exRowC8
    simp only [Option.getD_some]
    rw [show getPadraoRegiao "CEILÂNDIA" = "Popular" from by decide]
    simp [cbicPct]
    norm_num

set_option maxRecDepth 100000 in
/-- Witness for C8 at the single CEILÂNDIA sold row. -/
theorem C8_witness :
    ("CEILÂNDIA" : String) ≠ "" ∧
    alookup (gastosPosEntrega [exRowC8]) ("CEILÂNDIA", "") =
      (if soldCellRows [exRowC8] "CEILÂNDIA" "" = [] then none
       else some (cellSpendSum [exRowC8] "CEILÂNDIA" "")) ∧
    (spendByCategory [exRowC8] "CEILÂNDIA").sum = regiaoGastosTotal [exRowC8] "CEILÂNDIA" :=
  ⟨by decide,
   (C8_post_delivery_spend [exRowC8] "CEILÂNDIA" "" (by decide)).1,
   (C8_post_delivery_spend [exRowC8] "CEILÂNDIA" "" (by decide)).2.2.1⟩

set_option maxRecDepth 400000 in
/-- Witness for C5 at the two-month example rows. -/
theorem C5_witness :
    valorRows exRowsC5 ofertadosTypes 202101 ≠ [] ∧
    alookup (calculateValorPonderadoPeriodAggregations exRowsC5 ofertadosTypes).monthly
        202101 =
      some (valorSum exRowsC5 ofertadosTypes 202101 / areaSum exRowsC5 ofertadosTypes 202101) ∧
    alookup (calculateValorPonderadoPeriodAggregations exRowsC5 ofertadosTypes).quarterly
        (2021, 1) = some (20 / 11) :=
  ⟨by decide,
   (C5_weighted_average_reweights exRowsC5 ofertadosTypes 202101 2021 1).1 (by decide),
   (C5_weighted_average_reweights exRowsC5 ofertadosTypes 202101 2021 1).2.2.2.1⟩

end Dashboard
